import Mathlib

/-!
Verification of the ClaudeForge orchestration pipeline.

Shallow embedding of the Python sources under `src/claudeforge/`:
`github_client.py`, `config.py`, `claude_session.py`, `notifications.py`,
`orchestrator.py`.  Python dictionaries are modelled as association lists
over a small dynamic value type `PyVal`; Python exceptions are modelled by
the `PyErr` type threaded through `Except`; external collaborators (the
GitHub HTTP API, git, the assistant subprocess, the notification back
ends) are modelled as oracle records supplied to the embedded functions.
-/

namespace ClaudeForge

/-- Model of a Python runtime value, as needed by the configuration
merger, the notification renderers and the orchestrator.  YAML/JSON
scalars, lists and string-keyed mappings. -/
inductive PyVal where
  | none
  | str (s : String)
  | int (n : Int)
  | bool (b : Bool)
  | list (xs : List PyVal)
  | dict (entries : List (String × PyVal))

/-- A Python dict with string keys (insertion-ordered association list). -/
abbrev PyDict := List (String × PyVal)

/-- Model of a raised Python exception, tagged by the exception class
used in the sources.  `message` is what `str(e)` yields (for `KeyError`
Python would quote the key; the quoting is immaterial to every claim and
is elided). -/
inductive PyErr where
  | valueError (msg : String)
  | attributeError (msg : String)
  | keyError (key : String)
  | typeError (msg : String)
  | timeoutExpired (msg : String)
  | gatewayError (msg : String)
  | vcsError (msg : String)
  | other (msg : String)

/-- `str(e)` as used by `run_session` when recording an error. -/
def PyErr.message : PyErr → String
  | .valueError m => m
  | .attributeError m => m
  | .keyError k => k
  | .typeError m => m
  | .timeoutExpired m => m
  | .gatewayError m => m
  | .vcsError m => m
  | .other m => m

/-- `d[k]` lookup for a Python dict (first binding wins, as keys are
unique in Python dicts). -/
def dictGet (d : PyDict) (k : String) : Option PyVal :=
  match d with
  | [] => Option.none
  | (k1, v) :: rest => if k1 = k then some v else dictGet rest k

/-- `d[k] = v` assignment for a Python dict: replaces the binding in
place when the key exists, appends otherwise (Python insertion order). -/
def dictSet (d : PyDict) (k : String) (v : PyVal) : PyDict :=
  match d with
  | [] => [(k, v)]
  | (k1, w) :: rest => if k1 = k then (k, v) :: rest else (k1, w) :: dictSet rest k v

/-- `d.get(k, default)`. -/
def dictGetD (d : PyDict) (k : String) (default : PyVal) : PyVal :=
  (dictGet d k).getD default

/-- `d[k]` with Python semantics: raises `KeyError` when absent. -/
def dictGetItem (d : PyDict) (k : String) : Except PyErr PyVal :=
  match dictGet d k with
  | some v => .ok v
  | Option.none => .error (.keyError k)

/-- Python truthiness of an optional dict argument (`if issue_data:`):
`None` and the empty dict are falsy. -/
def pyTruthyDict : Option PyDict → Bool
  | Option.none => false
  | some d => !d.isEmpty

/-- `str(v)` for the values that the program interpolates into
f-strings.  Containers are only ever rendered through their elements in
the sources, so their own rendering is a placeholder. -/
def pyStr : PyVal → String
  | .none => "None"
  | .str s => s
  | .int n => toString n
  | .bool b => if b then "True" else "False"
  | .list _ => "[...]"
  | .dict _ => "[...]"

/- ---------------------------------------------------------------------
Character-list string utilities (structural, kernel-reducible stand-ins
for the Python `str` operations the sources use).
--------------------------------------------------------------------- -/

/-- Split a character list at every occurrence of `c`, keeping empty
fields — the behaviour of Python `s.split(c)` on a nonempty separator. -/
def splitOnChar (c : Char) : List Char → List (List Char)
  | [] => [[]]
  | x :: xs =>
    if x = c then [] :: splitOnChar c xs
    else
      match splitOnChar c xs with
      | [] => [[x]]
      | y :: ys => (x :: y) :: ys

/-- Remove every trailing occurrence of `c`. -/
def stripTrailing (c : Char) : List Char → List Char
  | [] => []
  | x :: xs =>
    match stripTrailing c xs with
    | [] => if x = c then [] else [x]
    | ys => x :: ys

/-- Python `s.strip('/')`-style strip of one character from both ends. -/
def pyStripChar (c : Char) (xs : List Char) : List Char :=
  stripTrailing c (xs.dropWhile (fun a => a = c))

/-- Join a list of strings with a separator — Python `sep.join(parts)`. -/
def joinSep (sep : String) : List String → String
  | [] => ""
  | [x] => x
  | x :: xs => x ++ sep ++ joinSep sep xs

/-- Python `str.title()` on the status words used by the notifiers:
alphabetic characters are uppercased after a non-alphabetic character
and lowercased otherwise. -/
def pyTitleAux : Bool → List Char → List Char
  | _, [] => []
  | prevAlpha, c :: rest =>
    if c.isAlpha then
      (if prevAlpha then c.toLower else c.toUpper) :: pyTitleAux true rest
    else
      c :: pyTitleAux false rest

/-- Python `s.title()`. -/
def pyTitle (s : String) : String :=
  String.mk (pyTitleAux false s.toList)

/-- Python `s.upper()` (ASCII, as used on status words). -/
def pyUpper (s : String) : String :=
  String.mk (s.toList.map Char.toUpper)

/-- Python `s.strip()` (whitespace from both ends). -/
def pyStripWs (xs : List Char) : List Char :=
  ((xs.dropWhile Char.isWhitespace).reverse.dropWhile Char.isWhitespace).reverse

/-- Digit run of a Python integer literal: single underscores are
permitted between digits (`int("4_2") = 42`). -/
def pyIntDigits : List Char → Nat → Option Nat
  | [], acc => some acc
  | c :: rest, acc =>
    if c.isDigit then pyIntDigits rest (acc * 10 + (c.toNat - 48))
    else if c = '_' then
      match rest with
      | d :: rest2 =>
        if d.isDigit then pyIntDigits rest2 (acc * 10 + (d.toNat - 48)) else Option.none
      | [] => Option.none
    else Option.none

/-- Python `int(s)`: optional surrounding whitespace, optional sign,
then a nonempty digit run. -/
def pyInt (s : String) : Option Int :=
  match pyStripWs s.toList with
  | '-' :: d :: rest =>
    if d.isDigit then (pyIntDigits (d :: rest) 0).map (fun n => -(n : Int)) else Option.none
  | '+' :: d :: rest =>
    if d.isDigit then (pyIntDigits (d :: rest) 0).map (fun n => (n : Int)) else Option.none
  | d :: rest =>
    if d.isDigit then (pyIntDigits (d :: rest) 0).map (fun n => (n : Int)) else Option.none
  | [] => Option.none

/- ---------------------------------------------------------------------
github_client.py — GitHubClient.parse_issue_url
--------------------------------------------------------------------- -/

/-- Scan to just past the first `://`, the scheme/authority separator —
the part of `urllib.parse.urlparse` relevant to the absolute http(s)
URLs this program receives. -/
def dropThroughSchemeSep : List Char → Option (List Char)
  | [] => Option.none
  | ':' :: '/' :: '/' :: rest => some rest
  | _ :: rest => dropThroughSchemeSep rest

/-- After the authority, the path starts at the first `/`; a `?` or `#`
ends the authority with an empty path. -/
def pathAfterAuthority : List Char → List Char
  | [] => []
  | '/' :: rest => '/' :: rest
  | '?' :: _ => []
  | '#' :: _ => []
  | _ :: rest => pathAfterAuthority rest

/-- The path component ends at the query or fragment separator. -/
def cutQueryFrag : List Char → List Char
  | [] => []
  | c :: rest => if c = '?' ∨ c = '#' then [] else c :: cutQueryFrag rest

/-- `urlparse(url).path` for the URL shapes the client is given. -/
def urlParsePathChars (url : List Char) : List Char :=
  match dropThroughSchemeSep url with
  | some rest => cutQueryFrag (pathAfterAuthority rest)
  | Option.none => cutQueryFrag url

/-- `urlparse(issue_url).path.strip('/').split('/')` from
`parse_issue_url`. -/
def pathParts (issue_url : String) : List String :=
  (splitOnChar '/' (pyStripChar '/' (urlParsePathChars issue_url.toList))).map
    (fun cs => String.mk cs)

/-- `GitHubClient.parse_issue_url` (github_client.py, lines 25-37):
split the URL path, require at least four segments with `issues` third,
and parse the fourth as the issue number. -/
def parse_issue_url (issue_url : String) : Except PyErr (String × String × Int) :=
  let parts := pathParts issue_url
  if parts.length < 4 ∨ parts.getD 2 "" ≠ "issues" then
    .error (.valueError ("Invalid GitHub issue URL: " ++ issue_url))
  else
    match pyInt (parts.getD 3 "") with
    | some n => .ok (parts.getD 0 "", parts.getD 1 "", n)
    | Option.none =>
      .error (.valueError ("invalid literal for int with base 10: " ++ parts.getD 3 ""))

/- ---------------------------------------------------------------------
config.py — settings schema, merge_dict, Config.load_from_file
--------------------------------------------------------------------- -/

/-- `ClaudeConfig` (config.py, lines 14-17). -/
structure ClaudeConfig where
  api_key : String
  model : String := "claude-3-sonnet-20240229"
  max_tokens : Int := 4000

/-- `GitHubConfig` (config.py, lines 20-22). -/
structure GitHubConfig where
  token : String
  default_branch : String := "main"

/-- `DiscordConfig` (config.py, lines 25-29). -/
structure DiscordConfig where
  enabled : Bool := false
  webhook_url : Option String := Option.none
  bot_token : Option String := Option.none
  channel_id : Option String := Option.none

/-- `EmailConfig` (config.py, lines 32-38). -/
structure EmailConfig where
  enabled : Bool := false
  smtp_server : Option String := Option.none
  smtp_port : Int := 587
  username : Option String := Option.none
  password : Option String := Option.none
  to_email : Option String := Option.none

/-- `NotificationConfig` (config.py, lines 41-43). -/
structure NotificationConfig where
  discord : DiscordConfig := {}
  email : EmailConfig := {}

/-- `DevelopmentConfig` (config.py, lines 46-50). -/
structure DevelopmentConfig where
  clone_dir : String := "/tmp/claudeforge-repos"
  max_session_time : Int := 3600
  auto_create_pr : Bool := true
  pr_draft : Bool := false

/-- `LoggingConfig` (config.py, lines 53-56). -/
structure LoggingConfig where
  level : String := "INFO"
  format : String := "%(asctime)s - %(name)s - %(levelname)s - %(message)s"
  file : String := "claudeforge.log"

/-- `Config` (config.py, lines 59-64). -/
structure Config where
  claude : ClaudeConfig
  github : GitHubConfig
  notifications : NotificationConfig := {}
  development : DevelopmentConfig := {}
  logging : LoggingConfig := {}

/-- Python attribute lookup on a `ClaudeConfig` pydantic model instance:
exactly the three declared fields exist, and any other name raises
`AttributeError` (pydantic `BaseModel` stores only declared fields). -/
def claudeConfigGetattr (c : ClaudeConfig) (name : String) : Except PyErr PyVal :=
  if name = "api_key" then .ok (.str c.api_key)
  else if name = "model" then .ok (.str c.model)
  else if name = "max_tokens" then .ok (.int c.max_tokens)
  else .error (.attributeError ("ClaudeConfig object has no attribute " ++ name))

/-- `merge_dict` from `Config.load_from_file` (config.py, lines 100-107):
walk the override items in order; skip `None` values; when the override
value is a dict and the key already exists in the base, merge into the
existing value; otherwise assign the override value wholesale.  Python
raises (`TypeError`/`AttributeError`) when it tries to assign into, or
recurse on, a non-dict base with a live override value; those paths are
the `.error` case. -/
def merge_dict (base : PyVal) (ov : List (String × PyVal)) : Except String PyVal :=
  match ov with
  | [] => .ok base
  | (k, v) :: rest =>
    match v with
    | .none => merge_dict base rest
    | .dict ovd =>
      match base with
      | .dict bd =>
        match dictGet bd k with
        | some bv =>
          match merge_dict bv ovd with
          | .ok m => merge_dict (.dict (dictSet bd k m)) rest
          | .error e => .error e
        | Option.none => merge_dict (.dict (dictSet bd k (.dict ovd))) rest
      | _ => .error "TypeError"
    | _ =>
      match base with
      | .dict bd => merge_dict (.dict (dictSet bd k v)) rest
      | _ => .error "TypeError"

/-- `os.getenv` results become the override leaves: a set variable is a
string, an unset one is `None`. -/
def envToPy : Option String → PyVal
  | some s => .str s
  | Option.none => .none

/-- The `env_overrides` mapping built in `Config.load_from_file`
(config.py, lines 76-97); `env` models `os.getenv`. -/
def envOverrides (env : String → Option String) : List (String × PyVal) :=
  [("claude", .dict [("api_key", envToPy (env "ANTHROPIC_API_KEY")),
                     ("model", envToPy (env "CLAUDE_MODEL"))]),
   ("github", .dict [("token", envToPy (env "GITHUB_TOKEN"))]),
   ("notifications", .dict
     [("discord", .dict [("webhook_url", envToPy (env "DISCORD_WEBHOOK_URL")),
                         ("bot_token", envToPy (env "DISCORD_BOT_TOKEN")),
                         ("channel_id", envToPy (env "DISCORD_CHANNEL_ID"))]),
      ("email", .dict [("smtp_server", envToPy (env "SMTP_SERVER")),
                       ("username", envToPy (env "SMTP_USERNAME")),
                       ("password", envToPy (env "SMTP_PASSWORD")),
                       ("to_email", envToPy (env "EMAIL_TO"))])])]

/-- pydantic validation of a required `str` field: absent and explicit
`None` both fail; the numeric coercions pydantic would additionally
accept never arise in this program and are reported as type errors. -/
def vReqStr (sec k : String) (d : PyDict) : Except String String :=
  match dictGet d k with
  | Option.none => .error (sec ++ "." ++ k ++ ": field required")
  | some (.str s) => .ok s
  | some .none => .error (sec ++ "." ++ k ++ ": none is not an allowed value")
  | some _ => .error (sec ++ "." ++ k ++ ": str type expected")

/-- pydantic validation of a `str` field with a default: the default
applies only when the key is absent; an explicit `None` fails. -/
def vStrD (sec k default : String) (d : PyDict) : Except String String :=
  match dictGet d k with
  | Option.none => .ok default
  | some (.str s) => .ok s
  | some .none => .error (sec ++ "." ++ k ++ ": none is not an allowed value")
  | some _ => .error (sec ++ "." ++ k ++ ": str type expected")

/-- pydantic validation of an `Optional[str] = None` field. -/
def vOptStr (sec k : String) (d : PyDict) : Except String (Option String) :=
  match dictGet d k with
  | Option.none => .ok Option.none
  | some .none => .ok Option.none
  | some (.str s) => .ok (some s)
  | some _ => .error (sec ++ "." ++ k ++ ": str type expected")

/-- pydantic validation of an `int` field with a default (numeric
strings are coerced as pydantic does). -/
def vIntD (sec k : String) (default : Int) (d : PyDict) : Except String Int :=
  match dictGet d k with
  | Option.none => .ok default
  | some (.int n) => .ok n
  | some (.bool b) => .ok (if b then 1 else 0)
  | some (.str s) =>
    match pyInt s with
    | some n => .ok n
    | Option.none => .error (sec ++ "." ++ k ++ ": value is not a valid integer")
  | some .none => .error (sec ++ "." ++ k ++ ": none is not an allowed value")
  | some _ => .error (sec ++ "." ++ k ++ ": value is not a valid integer")

/-- pydantic validation of a `bool` field with a default. -/
def vBoolD (sec k : String) (default : Bool) (d : PyDict) : Except String Bool :=
  match dictGet d k with
  | Option.none => .ok default
  | some (.bool b) => .ok b
  | some (.int n) => .ok (n ≠ 0)
  | some .none => .error (sec ++ "." ++ k ++ ": none is not an allowed value")
  | some _ => .error (sec ++ "." ++ k ++ ": value could not be parsed to a boolean")

/-- Validation of the `claude` section into `ClaudeConfig`. -/
def validateClaude (v : Option PyVal) : Except String ClaudeConfig :=
  match v with
  | Option.none => .error "claude: field required"
  | some (.dict d) => do
    let api ← vReqStr "claude" "api_key" d
    let model ← vStrD "claude" "model" "claude-3-sonnet-20240229" d
    let mt ← vIntD "claude" "max_tokens" 4000 d
    .ok { api_key := api, model := model, max_tokens := mt }
  | some _ => .error "claude: value is not a valid dict"

/-- Validation of the `github` section into `GitHubConfig`. -/
def validateGitHub (v : Option PyVal) : Except String GitHubConfig :=
  match v with
  | Option.none => .error "github: field required"
  | some (.dict d) => do
    let tok ← vReqStr "github" "token" d
    let db ← vStrD "github" "default_branch" "main" d
    .ok { token := tok, default_branch := db }
  | some _ => .error "github: value is not a valid dict"

/-- Validation of the `notifications.discord` subsection. -/
def validateDiscord (v : Option PyVal) : Except String DiscordConfig :=
  match v with
  | Option.none => .ok {}
  | some (.dict d) => do
    let en ← vBoolD "notifications.discord" "enabled" false d
    let wh ← vOptStr "notifications.discord" "webhook_url" d
    let bt ← vOptStr "notifications.discord" "bot_token" d
    let ch ← vOptStr "notifications.discord" "channel_id" d
    .ok { enabled := en, webhook_url := wh, bot_token := bt, channel_id := ch }
  | some _ => .error "notifications.discord: value is not a valid dict"

/-- Validation of the `notifications.email` subsection. -/
def validateEmail (v : Option PyVal) : Except String EmailConfig :=
  match v with
  | Option.none => .ok {}
  | some (.dict d) => do
    let en ← vBoolD "notifications.email" "enabled" false d
    let srv ← vOptStr "notifications.email" "smtp_server" d
    let port ← vIntD "notifications.email" "smtp_port" 587 d
    let user ← vOptStr "notifications.email" "username" d
    let pw ← vOptStr "notifications.email" "password" d
    let toE ← vOptStr "notifications.email" "to_email" d
    .ok { enabled := en, smtp_server := srv, smtp_port := port,
          username := user, password := pw, to_email := toE }
  | some _ => .error "notifications.email: value is not a valid dict"

/-- Validation of the `notifications` section. -/
def validateNotifications (v : Option PyVal) : Except String NotificationConfig :=
  match v with
  | Option.none => .ok {}
  | some (.dict d) => do
    let dc ← validateDiscord (dictGet d "discord")
    let em ← validateEmail (dictGet d "email")
    .ok { discord := dc, email := em }
  | some _ => .error "notifications: value is not a valid dict"

/-- Validation of the `development` section. -/
def validateDevelopment (v : Option PyVal) : Except String DevelopmentConfig :=
  match v with
  | Option.none => .ok {}
  | some (.dict d) => do
    let cd ← vStrD "development" "clone_dir" "/tmp/claudeforge-repos" d
    let ms ← vIntD "development" "max_session_time" 3600 d
    let ac ← vBoolD "development" "auto_create_pr" true d
    let pd ← vBoolD "development" "pr_draft" false d
    .ok { clone_dir := cd, max_session_time := ms, auto_create_pr := ac, pr_draft := pd }
  | some _ => .error "development: value is not a valid dict"

/-- Validation of the `logging` section. -/
def validateLogging (v : Option PyVal) : Except String LoggingConfig :=
  match v with
  | Option.none => .ok {}
  | some (.dict d) => do
    let lv ← vStrD "logging" "level" "INFO" d
    let fm ← vStrD "logging" "format" "%(asctime)s - %(name)s - %(levelname)s - %(message)s" d
    let fl ← vStrD "logging" "file" "claudeforge.log" d
    .ok { level := lv, format := fm, file := fl }
  | some _ => .error "logging: value is not a valid dict"

/-- `Config(**config_data)`: pydantic validation of the merged mapping
into the settings object. -/
def validateConfig (merged : PyVal) : Except String Config :=
  match merged with
  | .dict d => do
    let cl ← validateClaude (dictGet d "claude")
    let gh ← validateGitHub (dictGet d "github")
    let nt ← validateNotifications (dictGet d "notifications")
    let dv ← validateDevelopment (dictGet d "development")
    let lg ← validateLogging (dictGet d "logging")
    .ok { claude := cl, github := gh, notifications := nt, development := dv, logging := lg }
  | _ => .error "config: value is not a valid dict"

/-- `Config.load_from_file` (config.py, lines 66-110): start from the
optional parsed YAML mapping (the empty mapping when no file is given),
deep-merge the environment overrides on top, then validate. -/
def load_from_file (file : Option PyDict) (env : String → Option String) : Except String Config := do
  let merged ← merge_dict (.dict (file.getD [])) (envOverrides env)
  validateConfig merged

/- ---------------------------------------------------------------------
claude_session.py — ClaudeSession
--------------------------------------------------------------------- -/

/-- `subprocess.CompletedProcess` as produced by `subprocess.run` and
consumed by the session analyzer. -/
structure CompletedProcess where
  returncode : Int
  stdout : String
  stderr : String

/-- Python `"sep".join(parts)` over dynamic values: every element must
be a string, otherwise `TypeError`. -/
def pyJoinStrs : List PyVal → Except PyErr (List String)
  | [] => .ok []
  | v :: rest =>
    match v with
    | .str s =>
      match pyJoinStrs rest with
      | .ok ss => .ok (s :: ss)
      | .error e => .error e
    | _ => .error (.typeError "sequence item: expected str instance")

/-- `ClaudeSession.create_instruction_prompt` (claude_session.py, lines
19-67): a fixed preamble and instruction line, an issue block when
`issue_data` is truthy, a repository block when `repo_data` is truthy,
and a fixed task checklist, joined with newlines.  All lines are
f-strings except the raw issue body, which `"\n".join` requires to be a
string. -/
def create_instruction_prompt (instruction : String)
    (issue_data repo_data : Option PyDict) : Except PyErr String :=
  let prompt_parts : List PyVal :=
    [.str "You are an autonomous software development assistant working on a GitHub repository.",
     .str "",
     .str ("Primary Instruction: " ++ instruction),
     .str ""]
    ++ (if pyTruthyDict issue_data then
          let d := issue_data.getD []
          [.str "GitHub Issue Context:",
           .str ("Title: " ++ pyStr (dictGetD d "title" (.str "N/A"))),
           .str ("Number: #" ++ pyStr (dictGetD d "number" (.str "N/A"))),
           .str ("State: " ++ pyStr (dictGetD d "state" (.str "N/A"))),
           .str "",
           .str "Issue Description:",
           dictGetD d "body" (.str "No description provided."),
           .str ""]
        else [])
    ++ (if pyTruthyDict repo_data then
          let r := repo_data.getD []
          [.str "Repository Context:",
           .str ("Name: " ++ pyStr (dictGetD r "full_name" (.str "N/A"))),
           .str ("Description: " ++ pyStr (dictGetD r "description" (.str "N/A"))),
           .str ("Language: " ++ pyStr (dictGetD r "language" (.str "N/A"))),
           .str ("Default Branch: " ++ pyStr (dictGetD r "default_branch" (.str "main"))),
           .str ""]
        else [])
    ++ [.str "Your Task:",
        .str "1. Analyze the codebase and understand the current implementation",
        .str "2. Implement the requested changes or fixes",
        .str "3. Ensure code quality and follow existing patterns",
        .str "4. Write or update tests as appropriate",
        .str "5. Make sure the changes work correctly",
        .str "",
        .str "Work autonomously and systematically. Create a plan and execute it step by step.",
        .str "Focus on delivering a complete, working solution."]
  match pyJoinStrs prompt_parts with
  | .ok lines => .ok (joinSep "\n" lines)
  | .error e => .error e

/-- What the `claude-code` subprocess does under `subprocess.run`, as a
function of the hard timeout `subprocess.run` is given: it completes
with an exit status, exceeds the timeout, or fails in some other way. -/
inductive ClaudeRunOutcome where
  | completed (p : CompletedProcess)
  | timedOut
  | raised (e : PyErr)

/-- `ClaudeSession.run_claude_code_session` (claude_session.py, lines
69-114): run the subprocess with the hard wall-clock timeout
`max_time + 60`; `TimeoutExpired` — like every other exception — is
logged and re-raised unchanged to the caller. -/
def run_claude_code_session (subprocess : Int → ClaudeRunOutcome) (max_time : Int) :
    Except PyErr CompletedProcess :=
  match subprocess (max_time + 60) with
  | .completed p => .ok p
  | .timedOut => .error (.timeoutExpired
      ("Command claude-code timed out after " ++ toString (max_time + 60) ++ " seconds"))
  | .raised e => .error e

/-- The analysis dict built by `ClaudeSession.analyze_session_output`. -/
structure SessionAnalysis where
  success : Bool
  return_code : Int
  stdout : String
  stderr : String
  summary : String
  changes_made : List String
  errors : List String

/-- `ClaudeSession.analyze_session_output` (claude_session.py, lines
116-138): success iff the exit code is zero; on failure the summary
embeds the exit code and the captured stderr is the sole error entry. -/
def analyze_session_output (r : CompletedProcess) : SessionAnalysis :=
  { success := r.returncode == 0
    return_code := r.returncode
    stdout := r.stdout
    stderr := r.stderr
    summary :=
      if r.returncode == 0 then "Claude Code session completed successfully"
      else "Claude Code session failed with return code " ++ toString r.returncode
    changes_made := []
    errors := if r.returncode == 0 then [] else [r.stderr] }

/- ---------------------------------------------------------------------
notifications.py — DiscordNotifier, EmailNotifier, NotificationManager
--------------------------------------------------------------------- -/

/-- Truthiness of a Python value (`if details["changes"]:`). -/
def pyTruthy : PyVal → Bool
  | .none => false
  | .str s => s ≠ ""
  | .int n => n ≠ 0
  | .bool b => b
  | .list xs => !xs.isEmpty
  | .dict d => !d.isEmpty

/-- `DiscordNotifier` construction state (notifications.py, lines 19-26). -/
structure DiscordNotifierS where
  webhook_url : Option String
  bot_token : Option String

/-- `EmailNotifier` construction state (notifications.py, lines 106-118);
`from_email` defaults to `username` when not supplied. -/
structure EmailNotifierS where
  smtp_server : Option String
  smtp_port : Int
  username : Option String
  password : Option String
  from_email : Option String

/-- The embed dict built by `DiscordNotifier.create_session_embed`
(fields are name/value/inline triples; values stay dynamic as in the
Python dict). -/
structure SessionEmbed where
  title : String
  color : Nat
  fields : List (String × PyVal × Bool)
  timestamp : PyVal
  description : Option PyVal

/-- `DiscordNotifier.create_session_embed` (notifications.py, lines
76-100): colored by status, base fields for the issue URL and status, an
optional description from `summary`, a `Changes Made` field holding the
first 5 changes joined by newlines, and an optional `Pull Request`
field.  Joining non-string change entries would raise in Python; the
sources only ever pass lists of strings. -/
def create_session_embed (status issue_url : String) (details : PyDict) :
    Except PyErr SessionEmbed := do
  let color : Nat := if status = "success" then 0x00ff00
                     else if status = "error" then 0xff0000 else 0xffaa00
  let baseFields : List (String × PyVal × Bool) :=
    [("Issue URL", .str issue_url, false), ("Status", .str status, true)]
  let changesFields ←
    match dictGet details "changes" with
    | some v =>
      if pyTruthy v then
        match v with
        | .list xs =>
          match pyJoinStrs (xs.take 5) with
          | .ok strs => Except.ok [("Changes Made", PyVal.str (joinSep "\n" strs), false)]
          | .error e => Except.error e
        | _ => Except.error (.typeError "changes: expected a list")
      else Except.ok []
    | Option.none => Except.ok []
  let prFields : List (String × PyVal × Bool) :=
    match dictGet details "pr_url" with
    | some v => [("Pull Request", v, false)]
    | Option.none => []
  Except.ok
    { title := "ClaudeForge Session " ++ pyTitle status
      color := color
      fields := baseFields ++ changesFields ++ prFields
      timestamp := dictGetD details "timestamp" (.str "")
      description := dictGet details "summary" }

/-- One attempted outbound delivery by the notification layer. -/
inductive ChannelEffect where
  | webhookPost (url : String) (message : String) (embed : SessionEmbed)
  | emailSend (to_email subject body html : String)

/-- `DiscordNotifier.send_webhook_message` (notifications.py, lines
28-47): no configured URL means a logged warning and `False`; otherwise
the POST is attempted and any delivery failure is caught, logged and
turned into `False`. -/
def send_webhook_message (d : DiscordNotifierS) (delivery : Except String Unit)
    (message : String) (embed : SessionEmbed) : Bool × List ChannelEffect :=
  match d.webhook_url with
  | Option.none => (false, [])
  | some url =>
    (match delivery with
     | .ok _ => true
     | .error _ => false,
     [.webhookPost url message embed])

/-- `EmailNotifier.create_session_email` (notifications.py, lines
156-200): subject line, plain-text body from the shared details, and an
HTML body derived by newline replacement.  The raw `summary` element
must be a string for the join, as in Python. -/
def create_session_email (status issue_url : String) (details : PyDict) :
    Except PyErr (String × String × String) :=
  let subject := "ClaudeForge Session " ++ pyTitle status ++ " - " ++ issue_url
  let body_parts : List PyVal :=
    [.str ("ClaudeForge Session Status: " ++ pyUpper status),
     .str "",
     .str ("Issue URL: " ++ issue_url),
     .str ""]
    ++ (match dictGet details "summary" with
        | some v => [.str "Summary:", v, .str ""]
        | Option.none => [])
    ++ (match dictGet details "changes" with
        | some v =>
          if pyTruthy v then
            match v with
            | .list xs =>
              [.str "Changes Made:"] ++ xs.map (fun c => .str ("- " ++ pyStr c)) ++ [.str ""]
            | _ => [.str "Changes Made:", .str ""]
          else []
        | Option.none => [])
    ++ (match dictGet details "pr_url" with
        | some v => [.str ("Pull Request: " ++ pyStr v), .str ""]
        | Option.none => [])
    ++ (match dictGet details "errors" with
        | some v =>
          if pyTruthy v then
            match v with
            | .list xs =>
              [.str "Errors:"] ++ xs.map (fun e => .str ("- " ++ pyStr e)) ++ [.str ""]
            | _ => [.str "Errors:", .str ""]
          else []
        | Option.none => [])
    ++ [.str "Generated by ClaudeForge"]
  match pyJoinStrs body_parts with
  | .ok lines =>
    let body := joinSep "\n" lines
    let html_body := String.mk (body.toList.flatMap
      (fun c => if c = '\n' then ['<', 'b', 'r', '>'] else [c]))
    .ok (subject, body, html_body)
  | .error e => .error e

/-- `NotificationManager` state: a notifier per enabled channel
(notifications.py, lines 206-226). -/
structure NotificationManagerS where
  discord : Option DiscordNotifierS
  email : Option EmailNotifierS

/-- `NotificationManager.__init__`: construct a notifier for each
channel whose `enabled` flag is set; `EmailNotifier.from_email` falls
back to the username. -/
def notificationManagerInit (config : Config) : NotificationManagerS :=
  { discord :=
      if config.notifications.discord.enabled then
        some { webhook_url := config.notifications.discord.webhook_url,
               bot_token := config.notifications.discord.bot_token }
      else Option.none
    email :=
      if config.notifications.email.enabled then
        some { smtp_server := config.notifications.email.smtp_server,
               smtp_port := config.notifications.email.smtp_port,
               username := config.notifications.email.username,
               password := config.notifications.email.password,
               from_email := config.notifications.email.username }
      else Option.none }

/-- `NotificationManager.notify_session_status` (notifications.py, lines
228-247): for the Discord channel, build the embed and attempt the
webhook delivery (failures are swallowed by `send_webhook_message`); for
the email channel, render the subject and dual plain/HTML bodies — and
send nothing, since the `send_email` call is commented out in the
source.  Rendering errors (impossible for the payloads the orchestrator
builds) would propagate, as they are outside any handler. -/
def notify_session_status (mgr : NotificationManagerS) (delivery : Except String Unit)
    (status issue_url : String) (details : PyDict) : Except PyErr (List ChannelEffect) := do
  let discordEffects ←
    match mgr.discord with
    | some d => do
      let embed ← create_session_embed status issue_url details
      let message := "ClaudeForge session " ++ status ++ " for " ++ issue_url
      let (_sent, effs) := send_webhook_message d delivery message embed
      pure effs
    | Option.none => pure []
  let emailEffects ←
    match mgr.email with
    | some _ => do
      let _rendered ← create_session_email status issue_url details
      pure ([] : List ChannelEffect)
    | Option.none => pure []
  pure (discordEffects ++ emailEffects)

/- ---------------------------------------------------------------------
orchestrator.py — ClaudeForgeOrchestrator.run_session
--------------------------------------------------------------------- -/

/-- One externally visible action performed by `run_session`, in
execution order.  Notification payloads are recorded at the manager call
(`notify_session_status` swallows delivery failures and the payloads
`run_session` builds render without error, so the call itself cannot
raise). -/
inductive Effect where
  | notify (status : String) (details : PyDict)
  | gitAddAll
  | gitCommit (message : String)
  | gitPush (branch : String)
  | prCreate (title body head base : String) (draft : Bool)
  | issueComment (owner repo : String) (issue_number : Int) (body : String)

/-- Behaviour of the external collaborators over one session.  Each
fallible call either succeeds or raises; `subprocess` is the assistant
subprocess as a function of the hard timeout it would be run under;
`dirty`/`untracked` is the working-tree diff state after the assistant;
`endTime` is the clock at the later `datetime.now()` calls (epoch
seconds — the ISO rendering of instants is immaterial to the claims). -/
structure OrchestratorEnv where
  issueFetch : Except PyErr PyDict
  repoFetch : Except PyErr PyDict
  mkdirOk : Except PyErr Unit
  cloneOk : Except PyErr Unit
  branchOk : Except PyErr Unit
  subprocess : Int → ClaudeRunOutcome
  dirty : Bool
  untracked : Bool
  addOk : Except PyErr Unit
  commitOk : Except PyErr Unit
  pushOk : Except PyErr Unit
  prCreateResult : Except PyErr PyDict
  commentOk : Except PyErr Unit
  endTime : Int

/-- The caller-supplied arguments of `run_session`. -/
structure SessionArgs where
  issue_url : String
  instruction : String
  branch_name : Option String := Option.none
  create_pr : Bool := true
  draft_pr : Bool := false

/-- The result dict built by `run_session`.  `Option` fields model keys
that may be absent from the dict; `pr_url` is `some v` when the key is
present with (possibly `None`) value `v`. -/
structure SessionResult where
  success : Bool
  issue_url : String
  start_time : Int
  instruction : String
  error : Option String := Option.none
  details : Option SessionAnalysis := Option.none
  branch_name : Option String := Option.none
  pr_url : Option PyVal := Option.none
  changes_committed : Option Bool := Option.none
  session_analysis : Option SessionAnalysis := Option.none
  message : Option String := Option.none
  end_time : Option Int := Option.none
  duration_seconds : Option Int := Option.none

/-- The PR body f-string of `run_session` (orchestrator.py, lines
144-159), before the final `.strip()`. -/
def prBodyRaw (issue_url instruction summary : String) (issue_number : Int) : String :=
  "\n## ClaudeForge Automated Changes\n\n**Issue:** " ++ issue_url
  ++ "\n**Instruction:** " ++ instruction
  ++ "\n\n### Summary\n" ++ summary
  ++ "\n\n### Changes Made\n- Automated implementation using Claude Code\n- Resolves issue #"
  ++ toString issue_number
  ++ "\n\n---\n*This pull request was automatically created by ClaudeForge*\n"

/-- Python `s.strip()`. -/
def pyStrip (s : String) : String := String.mk (pyStripWs s.toList)

/-- Outcome of the `try` block of `run_session`: a normal `return` or an
exception reaching the top-level boundary, together with the effects
performed up to that point. -/
inductive TryOutcome where
  | ret (result : SessionResult) (effects : List Effect)
  | exn (e : PyErr) (effects : List Effect)

/-- The `try` body of `ClaudeForgeOrchestrator.run_session`
(orchestrator.py, lines 45-224): parse the issue URL, fetch issue and
repository, derive the branch name when none (or an empty one) was
given, create the clone directory, clone, branch, build the prompt, send
the "started" notification, read the assistant budget from
`self.config.claude.timeout`, run the assistant, classify, and then
commit/push/PR or report no changes.  Exceptions anywhere surface as
`.exn`; the early `return result` after a failed classification is a
normal `.ret` without an end time. -/
def runSessionTry (cfg : Config) (env : OrchestratorEnv) (a : SessionArgs)
    (session_start : Int) : TryOutcome :=
  let result0 : SessionResult :=
    { success := false, issue_url := a.issue_url, start_time := session_start,
      instruction := a.instruction }
  match parse_issue_url a.issue_url with
  | .error e => .exn e []
  | .ok (owner, repo, issue_number) =>
  match env.issueFetch with
  | .error e => .exn e []
  | .ok issue_data =>
  match env.repoFetch with
  | .error e => .exn e []
  | .ok repo_data =>
  let generated := "claudeforge-issue-" ++ toString issue_number ++ "-" ++ toString session_start
  let branch :=
    match a.branch_name with
    | some b => if b = "" then generated else b
    | Option.none => generated
  match env.mkdirOk with
  | .error e => .exn e []
  | .ok _ =>
  match dictGetItem repo_data "clone_url" with
  | .error e => .exn e []
  | .ok (PyVal.str _clone_url) =>
  (match env.cloneOk with
  | .error e => .exn e []
  | .ok _ =>
  match env.branchOk with
  | .error e => .exn e []
  | .ok _ =>
  match create_instruction_prompt a.instruction (some issue_data) (some repo_data) with
  | .error e => .exn e []
  | .ok _full_instruction =>
  match dictGetItem repo_data "full_name" with
  | .error e => .exn e []
  | .ok full_name =>
  let startedDetails : PyDict :=
    [("timestamp", .str (toString session_start)),
     ("repository", full_name),
     ("branch", .str branch),
     ("summary", .str ("Started working on issue #" ++ toString issue_number ++ ": "
        ++ pyStr (dictGetD issue_data "title" (.str "N/A"))))]
  let effs0 : List Effect := [.notify "started" startedDetails]
  match claudeConfigGetattr cfg.claude "timeout" with
  | .error e => .exn e effs0
  | .ok (PyVal.int max_time) =>
    (match run_claude_code_session env.subprocess max_time with
     | .error e => .exn e effs0
     | .ok claude_result =>
       let session_analysis := analyze_session_output claude_result
       if !session_analysis.success then
         let failedDetails : PyDict :=
           [("timestamp", .str (toString env.endTime)),
            ("summary", .str "Claude Code session failed"),
            ("errors", .list (session_analysis.errors.map PyVal.str))]
         .ret { result0 with
                  error := some "Claude Code session failed",
                  details := some session_analysis }
              (effs0 ++ [.notify "failed" failedDetails])
       else if env.dirty || env.untracked then
         let effs1 := effs0 ++ [.gitAddAll]
         match env.addOk with
         | .error e => .exn e effs1
         | .ok _ =>
         let commit_message :=
           "ClaudeForge: " ++ a.instruction ++ "\n\nResolves #" ++ toString issue_number
         let effs2 := effs1 ++ [.gitCommit commit_message]
         match env.commitOk with
         | .error e => .exn e effs2
         | .ok _ =>
         let effs3 := effs2 ++ [.gitPush branch]
         match env.pushOk with
         | .error e => .exn e effs3
         | .ok _ =>
         let base_branch := pyStr (dictGetD repo_data "default_branch" (.str "main"))
         let afterPr :
             Except (PyErr × List Effect) (Option PyVal × List Effect) :=
           if a.create_pr && cfg.development.auto_create_pr then
             let pr_title := "ClaudeForge: " ++ a.instruction
             let pr_body :=
               pyStrip (prBodyRaw a.issue_url a.instruction session_analysis.summary issue_number)
             let effs4 := effs3 ++ [.prCreate pr_title pr_body branch base_branch a.draft_pr]
             match env.prCreateResult with
             | .error e => .error (e, effs4)
             | .ok pr_data =>
               match dictGetItem pr_data "html_url" with
               | .error e => .error (e, effs4)
               | .ok pr_url_val =>
                 let comment := "🤖 ClaudeForge has created a pull request to address this issue: "
                   ++ pyStr pr_url_val
                 let effs5 := effs4 ++ [.issueComment owner repo issue_number comment]
                 match env.commentOk with
                 | .error e => .error (e, effs5)
                 | .ok _ => .ok (some pr_url_val, effs5)
           else .ok (some PyVal.none, effs3)
         match afterPr with
         | .error (e, effs) => .exn e effs
         | .ok (pr_url, effs) =>
           let successDetails : PyDict :=
             [("timestamp", .str (toString env.endTime)),
              ("summary", .str ("Successfully completed work on issue #" ++ toString issue_number)),
              ("pr_url", (pr_url.getD PyVal.none)),
              ("branch", .str branch),
              ("changes", .list (session_analysis.changes_made.map PyVal.str))]
           .ret { result0 with
                    success := true,
                    branch_name := some branch,
                    pr_url := pr_url,
                    changes_committed := some true,
                    session_analysis := some session_analysis,
                    end_time := some env.endTime,
                    duration_seconds := some (env.endTime - session_start) }
                (effs ++ [.notify "success" successDetails])
       else
         let completedDetails : PyDict :=
           [("timestamp", .str (toString env.endTime)),
            ("summary", .str "Session completed but no changes were made")]
         .ret { result0 with
                  success := true,
                  changes_committed := some false,
                  message := some "No changes were made to the repository",
                  end_time := some env.endTime,
                  duration_seconds := some (env.endTime - session_start) }
              (effs0 ++ [.notify "completed" completedDetails]))
  | .ok _ => .exn (.typeError "timeout value must be numeric") effs0)
  | .ok _ => .exn (.attributeError "clone_url object has no attribute startswith") []

/-- The details payload of the boundary "error" notification
(orchestrator.py, lines 231-239). -/
def errorNotifyDetails (e : PyErr) (t : Int) : PyDict :=
  [("timestamp", .str (toString t)),
   ("summary", .str ("Session failed with error: " ++ e.message)),
   ("errors", .list [.str e.message])]

/-- `ClaudeForgeOrchestrator.run_session` (orchestrator.py, lines
28-241): the try body plus the top-level `except Exception` boundary,
which records `str(e)` into the result, stamps the end time, sends an
"error" notification, and returns the result record to the caller. -/
def runSession (cfg : Config) (env : OrchestratorEnv) (a : SessionArgs)
    (session_start : Int) : SessionResult × List Effect :=
  match runSessionTry cfg env a session_start with
  | .ret r effs => (r, effs)
  | .exn e effs =>
    ({ success := false, issue_url := a.issue_url, start_time := session_start,
       instruction := a.instruction, error := some e.message,
       end_time := some env.endTime },
     effs ++ [.notify "error" (errorNotifyDetails e env.endTime)])

/- ---------------------------------------------------------------------
Derived observation predicates and spec-side decompositions
--------------------------------------------------------------------- -/

/-- Whether the session trace contains a pull-request creation attempt. -/
def prAttempted (effs : List Effect) : Bool :=
  effs.any fun e => match e with | .prCreate _ _ _ _ _ => true | _ => false

/-- The notification statuses sent during a session, in order. -/
def notifyStatuses (effs : List Effect) : List String :=
  effs.filterMap fun e => match e with | .notify s _ => some s | _ => Option.none

/-- Spec decomposition of the prompt: the fixed preamble and the
instruction line. -/
def promptPreamble (instruction : String) : List String :=
  ["You are an autonomous software development assistant working on a GitHub repository.",
   "",
   "Primary Instruction: " ++ instruction,
   ""]

/-- Spec decomposition of the prompt: the optional issue block (title,
number, state, body). -/
def promptIssueBlock (d : PyDict) (body : String) : List String :=
  ["GitHub Issue Context:",
   "Title: " ++ pyStr (dictGetD d "title" (.str "N/A")),
   "Number: #" ++ pyStr (dictGetD d "number" (.str "N/A")),
   "State: " ++ pyStr (dictGetD d "state" (.str "N/A")),
   "",
   "Issue Description:",
   body,
   ""]

/-- Spec decomposition of the prompt: the optional repository block
(name, description, language, default branch). -/
def promptRepoBlock (r : PyDict) : List String :=
  ["Repository Context:",
   "Name: " ++ pyStr (dictGetD r "full_name" (.str "N/A")),
   "Description: " ++ pyStr (dictGetD r "description" (.str "N/A")),
   "Language: " ++ pyStr (dictGetD r "language" (.str "N/A")),
   "Default Branch: " ++ pyStr (dictGetD r "default_branch" (.str "main")),
   ""]

/-- Spec decomposition of the prompt: the fixed task checklist. -/
def promptChecklist : List String :=
  ["Your Task:",
   "1. Analyze the codebase and understand the current implementation",
   "2. Implement the requested changes or fixes",
   "3. Ensure code quality and follow existing patterns",
   "4. Write or update tests as appropriate",
   "5. Make sure the changes work correctly",
   "",
   "Work autonomously and systematically. Create a plan and execute it step by step.",
   "Focus on delivering a complete, working solution."]

/- ---------------------------------------------------------------------
Configuration-merge analysis: the resolved shape of the merged mapping
--------------------------------------------------------------------- -/

/-- One environment leaf applied to a section dict: a present variable
overwrites the key, an absent one leaves the dict untouched. -/
def applyLeaf (d : PyDict) (k : String) (e : Option String) : PyDict :=
  match e with
  | some s => dictSet d k (.str s)
  | Option.none => d

/-- All leaves of a section applied in order. -/
def applyLeaves (d : PyDict) (ls : List (String × Option String)) : PyDict :=
  ls.foldl (fun acc p => applyLeaf acc p.1 p.2) d

/-- The resolved value of a flat (leaves-only) override section: merged
into the existing file dict when one is present, otherwise the raw
override dict — including its `None` leaves — copied wholesale. -/
def resolvedFlat (ls : List (String × Option String)) (b : Option PyVal) : PyVal :=
  match b with
  | some (.dict d) => .dict (applyLeaves d ls)
  | _ => .dict (ls.map (fun p => (p.1, envToPy p.2)))

/-- The environment leaves of the `claude` override section. -/
def claudeLeaves (env : String → Option String) : List (String × Option String) :=
  [("api_key", env "ANTHROPIC_API_KEY"), ("model", env "CLAUDE_MODEL")]

/-- The environment leaves of the `github` override section. -/
def githubLeaves (env : String → Option String) : List (String × Option String) :=
  [("token", env "GITHUB_TOKEN")]

/-- The environment leaves of the `notifications.discord` subsection. -/
def discordLeaves (env : String → Option String) : List (String × Option String) :=
  [("webhook_url", env "DISCORD_WEBHOOK_URL"), ("bot_token", env "DISCORD_BOT_TOKEN"),
   ("channel_id", env "DISCORD_CHANNEL_ID")]

/-- The environment leaves of the `notifications.email` subsection. -/
def emailLeaves (env : String → Option String) : List (String × Option String) :=
  [("smtp_server", env "SMTP_SERVER"), ("username", env "SMTP_USERNAME"),
   ("password", env "SMTP_PASSWORD"), ("to_email", env "EMAIL_TO")]

/-- The resolved value of the nested `notifications` override section. -/
def resolvedNotifications (b : Option PyVal) (env : String → Option String) : PyVal :=
  match b with
  | some (.dict nd) =>
    .dict (dictSet (dictSet nd "discord" (resolvedFlat (discordLeaves env) (dictGet nd "discord")))
                   "email" (resolvedFlat (emailLeaves env) (dictGet nd "email")))
  | _ => .dict [("discord", resolvedFlat (discordLeaves env) Option.none),
                ("email", resolvedFlat (emailLeaves env) Option.none)]

/-- A key of a mapping, when present, holds a dict. -/
def SectionIsDict (d : PyDict) (k : String) : Prop :=
  ∀ v, dictGet d k = some v → ∃ d2, v = PyVal.dict d2

/-- Well-formedness of a configuration file: the mergeable sections,
when present, are mappings (as any valid YAML configuration has them). -/
def WFFile (file : PyDict) : Prop :=
  SectionIsDict file "claude" ∧ SectionIsDict file "github" ∧
  SectionIsDict file "notifications" ∧
  ∀ nd, dictGet file "notifications" = some (.dict nd) →
    SectionIsDict nd "discord" ∧ SectionIsDict nd "email"

/-- Lookup along a key path in nested dicts. -/
def pathGet (d : PyDict) : List String → Option PyVal
  | [] => Option.none
  | [k] => dictGet d k
  | k :: rest =>
    match dictGet d k with
    | some (.dict d2) => pathGet d2 rest
    | _ => Option.none

/-- The nine key paths an environment variable can supply, with their
variable names (config.py, lines 76-97). -/
def envVarPaths : List (List String × String) :=
  [(["claude", "api_key"], "ANTHROPIC_API_KEY"),
   (["claude", "model"], "CLAUDE_MODEL"),
   (["github", "token"], "GITHUB_TOKEN"),
   (["notifications", "discord", "webhook_url"], "DISCORD_WEBHOOK_URL"),
   (["notifications", "discord", "bot_token"], "DISCORD_BOT_TOKEN"),
   (["notifications", "discord", "channel_id"], "DISCORD_CHANNEL_ID"),
   (["notifications", "email", "smtp_server"], "SMTP_SERVER"),
   (["notifications", "email", "username"], "SMTP_USERNAME"),
   (["notifications", "email", "password"], "SMTP_PASSWORD"),
   (["notifications", "email", "to_email"], "EMAIL_TO")]

/-- Representative key paths with no environment variable. -/
def nonEnvPaths : List (List String) :=
  [["claude", "max_tokens"], ["github", "default_branch"],
   ["notifications", "discord", "enabled"], ["notifications", "email", "enabled"],
   ["notifications", "email", "smtp_port"], ["development", "max_session_time"],
   ["logging", "level"]]

/-- The sub-mapping of the `notifications` file value at `k`. -/
def notifInner (b : Option PyVal) (k : String) : Option PyVal :=
  match b with
  | some (.dict nd) => dictGet nd k
  | _ => Option.none

/- ---------------------------------------------------------------------
Concrete instances used to witness the theorems
--------------------------------------------------------------------- -/

/-- A fetched issue payload. -/
def issueDemo : PyDict :=
  [("title", .str "Fix crash"), ("number", .int 1), ("state", .str "open"),
   ("body", .str "It crashes")]

/-- A fetched repository payload. -/
def repoDemo : PyDict :=
  [("clone_url", .str "https://github.com/o/r.git"), ("full_name", .str "o/r"),
   ("description", .str "demo"), ("language", .str "Python"),
   ("default_branch", .str "main")]

/-- A settings object with every optional field at its default. -/
def cfgDemo : Config := { claude := { api_key := "k" }, github := { token := "t" } }

/-- Caller arguments for one session. -/
def argsDemo : SessionArgs :=
  { issue_url := "https://github.com/o/r/issues/1", instruction := "do it" }

/-- A fully cooperative environment: every collaborator succeeds and the
assistant exits 0 leaving a dirty tree. -/
def envCoop : OrchestratorEnv :=
  { issueFetch := .ok issueDemo, repoFetch := .ok repoDemo, mkdirOk := .ok (),
    cloneOk := .ok (), branchOk := .ok (),
    subprocess := fun _ => .completed { returncode := 0, stdout := "", stderr := "" },
    dirty := true, untracked := false, addOk := .ok (), commitOk := .ok (),
    pushOk := .ok (),
    prCreateResult := .ok [("html_url", .str "https://github.com/o/r/pull/9")],
    commentOk := .ok (), endTime := 2000 }

/-- The cooperative environment, except that the assistant subprocess
would exceed any timeout it is run under. -/
def envTimeoutDemo : OrchestratorEnv := { envCoop with subprocess := fun _ => .timedOut }

/-- The cooperative environment, except that the issue fetch raises. -/
def envFetchFail : OrchestratorEnv :=
  { envCoop with issueFetch := .error (.gatewayError "404 Not Found") }

/-- An environment supplying only the two required credentials, as the
repository test `test_config_from_env` does. -/
def envOnlyCreds : String → Option String := fun k =>
  if k = "ANTHROPIC_API_KEY" then some "test-claude-key"
  else if k = "GITHUB_TOKEN" then some "test-github-token"
  else Option.none

/-- A configuration file supplying both credentials, as the repository
test `test_config_env_override` does. -/
def fileDemo : PyDict :=
  [("claude", .dict [("api_key", .str "file-claude-key")]),
   ("github", .dict [("token", .str "file-github-token")])]

/-- An environment supplying only the assistant credential. -/
def envDemo : String → Option String := fun k =>
  if k = "ANTHROPIC_API_KEY" then some "env-claude-key" else Option.none

/-- A settings object with both notification channels enabled. -/
def cfgBothChannels : Config :=
  { claude := { api_key := "k" }, github := { token := "t" },
    notifications :=
      { discord := { enabled := true, webhook_url := some "https://discord.example/webhook" },
        email := { enabled := true, smtp_server := some "smtp.example",
                   username := some "u", password := some "p",
                   to_email := some "dev@example.com" } } }

/-- A details payload with six change entries. -/
def detailsDemo : PyDict :=
  [("timestamp", .str "2024-01-01T00:00:00"), ("summary", .str "done"),
   ("changes", .list [.str "c1", .str "c2", .str "c3", .str "c4", .str "c5", .str "c6"]),
   ("pr_url", .str "https://github.com/o/r/pull/9")]

/- ---------------------------------------------------------------------
Supporting lemmas
--------------------------------------------------------------------- -/

theorem splitOnChar_no_sep (c : Char) (xs : List Char) (h : ∀ a ∈ xs, a ≠ c) :
    splitOnChar c xs = [xs] := by
  induction xs with
  | nil => rfl
  | cons x xs ih =>
    have hx : x ≠ c := h x (by simp)
    have := ih (fun a ha => h a (by simp [ha]))
    simp [splitOnChar, hx, this]

theorem splitOnChar_append_cons (c : Char) (xs rest : List Char) (h : ∀ a ∈ xs, a ≠ c) :
    splitOnChar c (xs ++ c :: rest) = xs :: splitOnChar c rest := by
  induction xs with
  | nil => simp [splitOnChar]
  | cons x xs ih =>
    have hx : x ≠ c := h x (by simp)
    have ih2 := ih (fun a ha => h a (by simp [ha]))
    rw [List.cons_append, splitOnChar, if_neg hx, ih2]

theorem stripTrailing_no_c (c : Char) (xs : List Char) (h : ∀ a ∈ xs, a ≠ c) :
    stripTrailing c xs = xs := by
  induction xs with
  | nil => rfl
  | cons x xs ih =>
    have hx : x ≠ c := h x (by simp)
    have ih2 := ih (fun a ha => h a (by simp [ha]))
    cases xs with
    | nil => simp [stripTrailing, hx]
    | cons y ys => simp [stripTrailing] at ih2 ⊢; simp [ih2]

theorem stripTrailing_append (c : Char) (xs ys : List Char) (hne : ys ≠ [])
    (h : ∀ a ∈ ys, a ≠ c) : stripTrailing c (xs ++ ys) = xs ++ ys := by
  induction xs with
  | nil => simpa using stripTrailing_no_c c ys h
  | cons x xs ih =>
    have : xs ++ ys ≠ [] := by simp [hne]
    rw [List.cons_append, stripTrailing]
    rw [ih]
    cases hys : xs ++ ys with
    | nil => exact absurd hys this
    | cons z zs => rfl

theorem cutQueryFrag_id (xs : List Char) (h : ∀ a ∈ xs, a ≠ '?' ∧ a ≠ '#') :
    cutQueryFrag xs = xs := by
  induction xs with
  | nil => rfl
  | cons x xs ih =>
    have hx := h x (by simp)
    have ih2 := ih (fun a ha => h a (by simp [ha]))
    simp [cutQueryFrag, hx.1, hx.2, ih2]

theorem dropScheme_https (rest : List Char) :
    dropThroughSchemeSep ('h' :: 't' :: 't' :: 'p' :: 's' :: ':' :: '/' :: '/' :: rest)
      = some rest := rfl

theorem pathAfterAuthority_host (rest : List Char) :
    pathAfterAuthority ('h' :: 'o' :: 's' :: 't' :: '/' :: rest) = '/' :: rest := rfl

theorem string_mk_toList (s : String) : String.mk s.toList = s := rfl

theorem toList_append (a b : String) : (a ++ b).toList = a.toList ++ b.toList := rfl

theorem cutQueryFrag_cons_ok (x : Char) (l : List Char) (h1 : x ≠ '?') (h2 : x ≠ '#') :
    cutQueryFrag (x :: l) = x :: cutQueryFrag l := by
  simp [cutQueryFrag, h1, h2]

theorem cutQueryFrag_append (xs ys : List Char) (h : ∀ a ∈ xs, a ≠ '?' ∧ a ≠ '#') :
    cutQueryFrag (xs ++ ys) = xs ++ cutQueryFrag ys := by
  induction xs with
  | nil => rfl
  | cons x xs ih =>
    have hx := h x (by simp)
    rw [List.cons_append, cutQueryFrag_cons_ok x _ hx.1 hx.2,
      ih (fun a ha => h a (by simp [ha])), List.cons_append]

theorem urlParse_of_scheme (url rest : List Char)
    (h : dropThroughSchemeSep url = some rest) :
    urlParsePathChars url = cutQueryFrag (pathAfterAuthority rest) := by
  unfold urlParsePathChars
  rw [h]

theorem parse_roundtrip (owner repo numseg : String) (m : Int)
    (ho : owner.toList ≠ []) (hn : numseg.toList ≠ [])
    (ho1 : ∀ a ∈ owner.toList, a ≠ '/' ∧ a ≠ '?' ∧ a ≠ '#')
    (hr1 : ∀ a ∈ repo.toList, a ≠ '/' ∧ a ≠ '?' ∧ a ≠ '#')
    (hn1 : ∀ a ∈ numseg.toList, a ≠ '/' ∧ a ≠ '?' ∧ a ≠ '#')
    (hm : pyInt numseg = some m) :
    parse_issue_url ("https://host/" ++ owner ++ "/" ++ repo ++ "/issues/" ++ numseg)
      = .ok (owner, repo, m) := by
  have hurl : ("https://host/" ++ owner ++ "/" ++ repo ++ "/issues/" ++ numseg).toList
      = 'h' :: 't' :: 't' :: 'p' :: 's' :: ':' :: '/' :: '/' ::
        ('h' :: 'o' :: 's' :: 't' :: '/' ::
          (owner.toList ++ '/' :: (repo.toList ++ '/' ::
            (['i', 's', 's', 'u', 'e', 's'] ++ '/' :: numseg.toList)))) := by
    simp only [toList_append]
    rw [show ("https://host/").toList
        = ['h', 't', 't', 'p', 's', ':', '/', '/', 'h', 'o', 's', 't', '/'] from rfl,
      show ("/").toList = ['/'] from rfl,
      show ("/issues/").toList = ['/', 'i', 's', 's', 'u', 'e', 's', '/'] from rfl]
    simp
  have hpath : urlParsePathChars
      ("https://host/" ++ owner ++ "/" ++ repo ++ "/issues/" ++ numseg).toList
      = '/' :: (owner.toList ++ '/' :: (repo.toList ++ '/' ::
          (['i', 's', 's', 'u', 'e', 's'] ++ '/' :: numseg.toList))) := by
    rw [hurl]
    rw [urlParse_of_scheme _ _ (dropScheme_https _), pathAfterAuthority_host]
    rw [cutQueryFrag_cons_ok '/' _ (by decide) (by decide)]
    rw [cutQueryFrag_append _ _ (fun a ha => ⟨(ho1 a ha).2.1, (ho1 a ha).2.2⟩)]
    rw [cutQueryFrag_cons_ok '/' _ (by decide) (by decide)]
    rw [cutQueryFrag_append _ _ (fun a ha => ⟨(hr1 a ha).2.1, (hr1 a ha).2.2⟩)]
    rw [cutQueryFrag_cons_ok '/' _ (by decide) (by decide)]
    rw [cutQueryFrag_append _ _ (by decide)]
    rw [cutQueryFrag_cons_ok '/' _ (by decide) (by decide)]
    rw [cutQueryFrag_id _ (fun a ha => ⟨(hn1 a ha).2.1, (hn1 a ha).2.2⟩)]
  have hstrip : pyStripChar '/' ('/' :: (owner.toList ++ '/' :: (repo.toList ++ '/' ::
      (['i', 's', 's', 'u', 'e', 's'] ++ '/' :: numseg.toList))))
      = owner.toList ++ '/' :: (repo.toList ++ '/' ::
          (['i', 's', 's', 'u', 'e', 's'] ++ '/' :: numseg.toList)) := by
    unfold pyStripChar
    obtain ⟨o1, orest, ho2⟩ : ∃ o1 orest, owner.toList = o1 :: orest := by
      cases howner : owner.toList with
      | nil => exact absurd howner ho
      | cons o1 orest => exact ⟨o1, orest, rfl⟩
    have ho3 : o1 ≠ '/' := by
      have := ho1 o1 (by rw [ho2]; simp)
      exact this.1
    rw [ho2]
    rw [show (('/' :: ((o1 :: orest) ++ '/' :: (repo.toList ++ '/' ::
      (['i', 's', 's', 'u', 'e', 's'] ++ '/' :: numseg.toList)))).dropWhile (fun a => a = '/'))
      = (o1 :: orest) ++ '/' :: (repo.toList ++ '/' ::
        (['i', 's', 's', 'u', 'e', 's'] ++ '/' :: numseg.toList)) from by
        simp [List.dropWhile_cons, ho3]]
    have hassoc : (o1 :: orest) ++ '/' :: (repo.toList ++ '/' ::
        (['i', 's', 's', 'u', 'e', 's'] ++ '/' :: numseg.toList))
        = ((o1 :: orest) ++ '/' :: (repo.toList ++ '/' ::
            (['i', 's', 's', 'u', 'e', 's'] ++ ['/']))) ++ numseg.toList := by
      simp
    rw [hassoc, stripTrailing_append '/' _ _ hn (fun a ha => (hn1 a ha).1), ← hassoc]
  have hsplit : splitOnChar '/' (owner.toList ++ '/' :: (repo.toList ++ '/' ::
      (['i', 's', 's', 'u', 'e', 's'] ++ '/' :: numseg.toList)))
      = [owner.toList, repo.toList, ['i', 's', 's', 'u', 'e', 's'], numseg.toList] := by
    rw [splitOnChar_append_cons '/' _ _ (fun a ha => (ho1 a ha).1)]
    rw [splitOnChar_append_cons '/' _ _ (fun a ha => (hr1 a ha).1)]
    rw [splitOnChar_append_cons '/' _ _ (by decide)]
    rw [splitOnChar_no_sep '/' _ (fun a ha => (hn1 a ha).1)]
  have hparts : pathParts ("https://host/" ++ owner ++ "/" ++ repo ++ "/issues/" ++ numseg)
      = [owner, repo, "issues", numseg] := by
    unfold pathParts
    rw [hpath, hstrip, hsplit]
    simp [string_mk_toList]
  unfold parse_issue_url
  rw [hparts]
  simp [hm]

theorem parse_failure (url : String)
    (h : (pathParts url).length < 4 ∨ (pathParts url).getD 2 "" ≠ "issues"
        ∨ pyInt ((pathParts url).getD 3 "") = Option.none) :
    ∃ msg, parse_issue_url url = .error (.valueError msg) := by
  unfold parse_issue_url
  by_cases hc : (pathParts url).length < 4 ∨ (pathParts url).getD 2 "" ≠ "issues"
  · exact ⟨"Invalid GitHub issue URL: " ++ url, by rw [if_pos hc]⟩
  · have h3 : pyInt ((pathParts url).getD 3 "") = Option.none := by tauto
    exact ⟨"invalid literal for int with base 10: " ++ (pathParts url).getD 3 "",
      by rw [if_neg hc, h3]⟩

theorem parse_success_general (url : String) (m : Int)
    (h4 : 4 ≤ (pathParts url).length)
    (hi : (pathParts url).getD 2 "" = "issues")
    (hm : pyInt ((pathParts url).getD 3 "") = some m) :
    parse_issue_url url = .ok ((pathParts url).getD 0 "", (pathParts url).getD 1 "", m) := by
  unfold parse_issue_url
  have hc : ¬((pathParts url).length < 4 ∨ (pathParts url).getD 2 "" ≠ "issues") := by
    push_neg
    exact ⟨by omega, hi⟩
  rw [if_neg hc, hm]

theorem pyJoinStrs_map_str (l : List String) : pyJoinStrs (l.map PyVal.str) = .ok l := by
  induction l with
  | nil => rfl
  | cons x xs ih => simp [pyJoinStrs, ih]

theorem run_claude_timeout_reraise (sub : Int → ClaudeRunOutcome) (m : Int)
    (h : sub (m + 60) = .timedOut) :
    run_claude_code_session sub m = .error (.timeoutExpired
      ("Command claude-code timed out after " ++ toString (m + 60) ++ " seconds")) := by
  unfold run_claude_code_session
  rw [h]

theorem claude_getattr_timeout (c : ClaudeConfig) :
    claudeConfigGetattr c "timeout"
      = .error (.attributeError "ClaudeConfig object has no attribute timeout") := rfl

theorem runSessionTry_always_exn (cfg : Config) (env : OrchestratorEnv)
    (a : SessionArgs) (ts : Int) :
    ∃ e effs, runSessionTry cfg env a ts = .exn e effs := by
  unfold runSessionTry
  cases hx1 : parse_issue_url a.issue_url with
  | error e => exact ⟨e, [], rfl⟩
  | ok t1 =>
    obtain ⟨owner, repo, n⟩ := t1
    simp only []
    cases hx2 : env.issueFetch with
    | error e => exact ⟨e, [], rfl⟩
    | ok issue_data =>
      simp only []
      cases hx3 : env.repoFetch with
      | error e => exact ⟨e, [], rfl⟩
      | ok repo_data =>
        simp only []
        cases hx4 : env.mkdirOk with
        | error e => exact ⟨e, [], rfl⟩
        | ok u1 =>
          simp only []
          cases hx5 : dictGetItem repo_data "clone_url" with
          | error e => exact ⟨e, [], rfl⟩
          | ok cu =>
            cases cu with
            | str s =>
              cases hx6 : env.cloneOk with
              | error e => exact ⟨e, [], rfl⟩
              | ok u2 =>
                simp only []
                cases hx7 : env.branchOk with
                | error e => exact ⟨e, [], rfl⟩
                | ok u3 =>
                  simp only []
                  cases hx8 : create_instruction_prompt a.instruction (some issue_data)
                      (some repo_data) with
                  | error e => exact ⟨e, [], rfl⟩
                  | ok p =>
                    simp only []
                    cases hx9 : dictGetItem repo_data "full_name" with
                    | error e => exact ⟨e, [], rfl⟩
                    | ok fn => exact ⟨_, _, rfl⟩
            | none => exact ⟨_, [], rfl⟩
            | int m => exact ⟨_, [], rfl⟩
            | bool b => exact ⟨_, [], rfl⟩
            | list xs => exact ⟨_, [], rfl⟩
            | dict d => exact ⟨_, [], rfl⟩

theorem run_session_catches (cfg : Config) (env : OrchestratorEnv) (a : SessionArgs)
    (ts : Int) (e : PyErr) (effs : List Effect)
    (h : runSessionTry cfg env a ts = .exn e effs) :
    runSession cfg env a ts
      = ({ success := false, issue_url := a.issue_url, start_time := ts,
           instruction := a.instruction, error := some e.message,
           end_time := some env.endTime },
         effs ++ [.notify "error" (errorNotifyDetails e env.endTime)]) := by
  unfold runSession
  rw [h]

theorem run_session_result_or_error (cfg : Config) (env : OrchestratorEnv)
    (a : SessionArgs) (ts : Int) :
    (runSession cfg env a ts).1.success = true
      ∨ ∃ msg, (runSession cfg env a ts).1.error = some msg := by
  obtain ⟨e, effs, h⟩ := runSessionTry_always_exn cfg env a ts
  right
  exact ⟨e.message, by rw [run_session_catches cfg env a ts e effs h]⟩

theorem runSessionTry_attr_error
    (cfg : Config) (env : OrchestratorEnv) (a : SessionArgs) (ts : Int)
    (owner repo : String) (n : Int) (issue_data repo_data : PyDict)
    (cu : String) (fnv : PyVal) (prompt : String)
    (hp : parse_issue_url a.issue_url = .ok (owner, repo, n))
    (hif : env.issueFetch = .ok issue_data)
    (hrf : env.repoFetch = .ok repo_data)
    (hmk : env.mkdirOk = .ok ())
    (hcu : dictGet repo_data "clone_url" = some (.str cu))
    (hcl : env.cloneOk = .ok ())
    (hbr : env.branchOk = .ok ())
    (hpr : create_instruction_prompt a.instruction (some issue_data) (some repo_data) = .ok prompt)
    (hfn : dictGet repo_data "full_name" = some fnv) :
    ∃ ds, runSessionTry cfg env a ts
      = .exn (.attributeError "ClaudeConfig object has no attribute timeout")
          [.notify "started" ds] := by
  simp only [runSessionTry, hp, hif, hrf, hmk, dictGetItem, hcu, hcl, hbr, hpr, hfn,
    claudeConfigGetattr]
  simp

theorem dictGet_dictSet_self (d : PyDict) (k : String) (v : PyVal) :
    dictGet (dictSet d k v) k = some v := by
  induction d with
  | nil => simp [dictSet, dictGet]
  | cons p rest ih =>
    obtain ⟨k1, w⟩ := p
    by_cases h : k1 = k
    · simp [dictSet, dictGet, h]
    · simp [dictSet, dictGet, h, ih]

theorem dictGet_dictSet_other (d : PyDict) (k k1 : String) (v : PyVal) (h : k ≠ k1) :
    dictGet (dictSet d k v) k1 = dictGet d k1 := by
  induction d with
  | nil => simp [dictSet, dictGet, h]
  | cons p rest ih =>
    obtain ⟨k2, w⟩ := p
    by_cases h2 : k2 = k
    · subst h2
      simp [dictSet, dictGet, h]
    · simp [dictSet, dictGet, h2, ih]

theorem dictGet_applyLeaf_self (d : PyDict) (k : String) (e : Option String) :
    dictGet (applyLeaf d k e) k
      = match e with | some s => some (.str s) | Option.none => dictGet d k := by
  cases e with
  | none => rfl
  | some s => simp [applyLeaf, dictGet_dictSet_self]

theorem dictGet_applyLeaf_other (d : PyDict) (k k1 : String) (e : Option String)
    (h : k ≠ k1) : dictGet (applyLeaf d k e) k1 = dictGet d k1 := by
  cases e with
  | none => rfl
  | some s => simp [applyLeaf, dictGet_dictSet_other _ _ _ _ h]

theorem applyLeaves_get_notmem (ls : List (String × Option String)) (d : PyDict) (k : String)
    (h : ∀ p ∈ ls, p.1 ≠ k) :
    dictGet (applyLeaves d ls) k = dictGet d k := by
  induction ls generalizing d with
  | nil => rfl
  | cons p rest ih =>
    simp only [applyLeaves, List.foldl_cons] at *
    rw [ih (applyLeaf d p.1 p.2) (fun q hq => h q (by simp [hq]))]
    exact dictGet_applyLeaf_other d p.1 k p.2 (h p (by simp))

theorem applyLeaves_get (pre post : List (String × Option String)) (d : PyDict)
    (k : String) (e : Option String)
    (hpre : ∀ p ∈ pre, p.1 ≠ k) (hpost : ∀ p ∈ post, p.1 ≠ k) :
    dictGet (applyLeaves d (pre ++ (k, e) :: post)) k
      = match e with | some s => some (.str s) | Option.none => dictGet d k := by
  unfold applyLeaves
  rw [List.foldl_append, List.foldl_cons]
  have h1 := applyLeaves_get_notmem post (applyLeaf (applyLeaves d pre) k e) k hpost
  unfold applyLeaves at h1
  rw [h1, dictGet_applyLeaf_self]
  cases e with
  | none =>
    exact applyLeaves_get_notmem pre d k hpre
  | some s => rfl

theorem mapEnv_get (pre post : List (String × Option String)) (k : String) (e : Option String)
    (hpre : ∀ p ∈ pre, p.1 ≠ k) :
    dictGet ((pre ++ (k, e) :: post).map (fun p => (p.1, envToPy p.2))) k
      = some (envToPy e) := by
  induction pre with
  | nil => simp [dictGet]
  | cons p rest ih =>
    have hp : p.1 ≠ k := hpre p (by simp)
    simp only [List.cons_append, List.map_cons, dictGet, hp, if_neg hp]
    exact ih (fun q hq => hpre q (by simp [hq]))

theorem merge_leaves (d : PyDict) (ls : List (String × Option String)) :
    merge_dict (.dict d) (ls.map (fun p => (p.1, envToPy p.2)))
      = .ok (.dict (applyLeaves d ls)) := by
  induction ls generalizing d with
  | nil => rfl
  | cons p rest ih =>
    obtain ⟨k, e⟩ := p
    cases e with
    | none =>
      simp only [List.map_cons, merge_dict, envToPy, applyLeaves, List.foldl_cons]
      exact ih d
    | some s =>
      simp only [List.map_cons, merge_dict, envToPy, applyLeaves, List.foldl_cons, applyLeaf]
      exact ih (dictSet d k (.str s))

theorem merge_dict_section (f : PyDict) (k : String) (ovd : PyDict)
    (rest : List (String × PyVal)) (resolved : PyVal)
    (hnone : dictGet f k = Option.none → PyVal.dict ovd = resolved)
    (hsome : ∀ bv, dictGet f k = some bv → merge_dict bv ovd = .ok resolved) :
    merge_dict (.dict f) ((k, .dict ovd) :: rest)
      = merge_dict (.dict (dictSet f k resolved)) rest := by
  cases h : dictGet f k with
  | none =>
    simp only [merge_dict, h]
    rw [hnone h]
  | some bv =>
    simp only [merge_dict, h, hsome bv h]

theorem envOverrides_eq (env : String → Option String) :
    envOverrides env =
      [("claude", .dict ((claudeLeaves env).map (fun p => (p.1, envToPy p.2)))),
       ("github", .dict ((githubLeaves env).map (fun p => (p.1, envToPy p.2)))),
       ("notifications", .dict
         [("discord", .dict ((discordLeaves env).map (fun p => (p.1, envToPy p.2)))),
          ("email", .dict ((emailLeaves env).map (fun p => (p.1, envToPy p.2))))])] := rfl

theorem merge_notifications (nd : PyDict) (env : String → Option String)
    (hd : SectionIsDict nd "discord") (he : SectionIsDict nd "email") :
    merge_dict (.dict nd)
      [("discord", .dict ((discordLeaves env).map (fun p => (p.1, envToPy p.2)))),
       ("email", .dict ((emailLeaves env).map (fun p => (p.1, envToPy p.2))))]
      = .ok (resolvedNotifications (some (.dict nd)) env) := by
  have hoth : dictGet (dictSet nd "discord"
      (resolvedFlat (discordLeaves env) (dictGet nd "discord"))) "email"
      = dictGet nd "email" :=
    dictGet_dictSet_other _ _ _ _ (by decide)
  rw [merge_dict_section nd "discord" _ _
      (resolvedFlat (discordLeaves env) (dictGet nd "discord"))
      (fun h => by rw [h]; rfl)
      (fun bv hb => by
        obtain ⟨dd, rfl⟩ := hd bv hb
        rw [hb]
        exact merge_leaves dd (discordLeaves env))]
  rw [merge_dict_section _ "email" _ _
      (resolvedFlat (emailLeaves env) (dictGet nd "email"))
      (fun h => by rw [hoth] at h; rw [h]; rfl)
      (fun bv hb => by
        rw [hoth] at hb
        obtain ⟨dd, rfl⟩ := he bv hb
        rw [hb]
        exact merge_leaves dd (emailLeaves env))]
  rfl

theorem merge_env_structure (file : PyDict) (env : String → Option String)
    (hWF : WFFile file) :
    ∃ m, merge_dict (.dict file) (envOverrides env) = .ok (.dict m) ∧
      dictGet m "claude" = some (resolvedFlat (claudeLeaves env) (dictGet file "claude")) ∧
      dictGet m "github" = some (resolvedFlat (githubLeaves env) (dictGet file "github")) ∧
      dictGet m "notifications"
        = some (resolvedNotifications (dictGet file "notifications") env) ∧
      ∀ k, k ≠ "claude" → k ≠ "github" → k ≠ "notifications" →
        dictGet m k = dictGet file k := by
  obtain ⟨hWc, hWg, hWn, hWnn⟩ := hWF
  rw [envOverrides_eq]
  rw [merge_dict_section file "claude" _ _
      (resolvedFlat (claudeLeaves env) (dictGet file "claude"))
      (fun h => by rw [h]; rfl)
      (fun bv hb => by
        obtain ⟨cd, rfl⟩ := hWc bv hb
        rw [hb]
        exact merge_leaves cd (claudeLeaves env))]
  have hg1 : dictGet (dictSet file "claude"
      (resolvedFlat (claudeLeaves env) (dictGet file "claude"))) "github"
      = dictGet file "github" := dictGet_dictSet_other _ _ _ _ (by decide)
  rw [merge_dict_section _ "github" _ _
      (resolvedFlat (githubLeaves env) (dictGet file "github"))
      (fun h => by rw [hg1] at h; rw [h]; rfl)
      (fun bv hb => by
        rw [hg1] at hb
        obtain ⟨gd, rfl⟩ := hWg bv hb
        rw [hb]
        exact merge_leaves gd (githubLeaves env))]
  have hn1 : dictGet (dictSet (dictSet file "claude"
        (resolvedFlat (claudeLeaves env) (dictGet file "claude"))) "github"
        (resolvedFlat (githubLeaves env) (dictGet file "github"))) "notifications"
      = dictGet file "notifications" := by
    rw [dictGet_dictSet_other _ _ _ _ (by decide), dictGet_dictSet_other _ _ _ _ (by decide)]
  rw [merge_dict_section _ "notifications" _ _
      (resolvedNotifications (dictGet file "notifications") env)
      (fun h => by rw [hn1] at h; rw [h]; rfl)
      (fun bv hb => by
        rw [hn1] at hb
        obtain ⟨nd, rfl⟩ := hWn bv hb
        rw [hb]
        obtain ⟨hd2, he2⟩ := hWnn nd hb
        exact merge_notifications nd env hd2 he2)]
  refine ⟨_, rfl, ?_, ?_, ?_, ?_⟩
  · rw [dictGet_dictSet_other _ _ _ _ (by decide),
      dictGet_dictSet_other _ _ _ _ (by decide), dictGet_dictSet_self]
  · rw [dictGet_dictSet_other _ _ _ _ (by decide), dictGet_dictSet_self]
  · rw [dictGet_dictSet_self]
  · intro k h1 h2 h3
    rw [dictGet_dictSet_other _ _ _ _ (Ne.symm h3),
      dictGet_dictSet_other _ _ _ _ (Ne.symm h2),
      dictGet_dictSet_other _ _ _ _ (Ne.symm h1)]

theorem mapEnv_get_notmem (ls : List (String × Option String)) (k : String)
    (h : ∀ p ∈ ls, p.1 ≠ k) :
    dictGet (ls.map (fun p => (p.1, envToPy p.2))) k = Option.none := by
  induction ls with
  | nil => rfl
  | cons p rest ih =>
    have hp : p.1 ≠ k := h p (by simp)
    simp only [List.map_cons, dictGet, if_neg hp]
    exact ih (fun q hq => h q (by simp [hq]))

theorem resolvedFlat_get_env_some (ls : List (String × Option String)) (b : Option PyVal)
    (k s : String) (pre post : List (String × Option String))
    (hls : ls = pre ++ (k, some s) :: post)
    (hpre : ∀ p ∈ pre, p.1 ≠ k) (hpost : ∀ p ∈ post, p.1 ≠ k) :
    ∃ d2, resolvedFlat ls b = .dict d2 ∧ dictGet d2 k = some (.str s) := by
  cases b with
  | none =>
    refine ⟨_, rfl, ?_⟩
    rw [hls, mapEnv_get pre post k (some s) hpre]
    rfl
  | some v =>
    cases v with
    | dict d =>
      refine ⟨_, rfl, ?_⟩
      rw [hls, applyLeaves_get pre post d k (some s) hpre hpost]
    | none =>
      refine ⟨_, rfl, ?_⟩
      rw [hls, mapEnv_get pre post k (some s) hpre]
      rfl
    | str s2 =>
      refine ⟨_, rfl, ?_⟩
      rw [hls, mapEnv_get pre post k (some s) hpre]
      rfl
    | int n =>
      refine ⟨_, rfl, ?_⟩
      rw [hls, mapEnv_get pre post k (some s) hpre]
      rfl
    | bool b2 =>
      refine ⟨_, rfl, ?_⟩
      rw [hls, mapEnv_get pre post k (some s) hpre]
      rfl
    | list xs =>
      refine ⟨_, rfl, ?_⟩
      rw [hls, mapEnv_get pre post k (some s) hpre]
      rfl

theorem resolvedFlat_get_env_none (ls : List (String × Option String)) (d : PyDict)
    (k : String) (pre post : List (String × Option String))
    (hls : ls = pre ++ (k, Option.none) :: post)
    (hpre : ∀ p ∈ pre, p.1 ≠ k) (hpost : ∀ p ∈ post, p.1 ≠ k) :
    ∃ d2, resolvedFlat ls (some (.dict d)) = .dict d2 ∧ dictGet d2 k = dictGet d k := by
  refine ⟨_, rfl, ?_⟩
  rw [hls, applyLeaves_get pre post d k Option.none hpre hpost]

theorem resolvedFlat_get_notmem_dict (ls : List (String × Option String)) (d : PyDict)
    (k : String) (h : ∀ p ∈ ls, p.1 ≠ k) :
    ∃ d2, resolvedFlat ls (some (.dict d)) = .dict d2 ∧ dictGet d2 k = dictGet d k :=
  ⟨_, rfl, applyLeaves_get_notmem ls d k h⟩

theorem resolvedFlat_get_notmem_none (ls : List (String × Option String))
    (k : String) (h : ∀ p ∈ ls, p.1 ≠ k) :
    ∃ d2, resolvedFlat ls Option.none = .dict d2 ∧ dictGet d2 k = Option.none :=
  ⟨_, rfl, mapEnv_get_notmem ls k h⟩

theorem resolvedNotifications_get_discord (b : Option PyVal) (env : String → Option String) :
    ∃ ndd, resolvedNotifications b env = .dict ndd ∧
      dictGet ndd "discord"
        = some (resolvedFlat (discordLeaves env) (notifInner b "discord")) := by
  cases b with
  | none => exact ⟨_, rfl, rfl⟩
  | some v =>
    cases v with
    | dict nd =>
      refine ⟨_, rfl, ?_⟩
      rw [dictGet_dictSet_other _ _ _ _ (by decide), dictGet_dictSet_self]
      rfl
    | none => exact ⟨_, rfl, rfl⟩
    | str s => exact ⟨_, rfl, rfl⟩
    | int n => exact ⟨_, rfl, rfl⟩
    | bool b2 => exact ⟨_, rfl, rfl⟩
    | list xs => exact ⟨_, rfl, rfl⟩

theorem resolvedNotifications_get_email (b : Option PyVal) (env : String → Option String) :
    ∃ ndd, resolvedNotifications b env = .dict ndd ∧
      dictGet ndd "email"
        = some (resolvedFlat (emailLeaves env) (notifInner b "email")) := by
  cases b with
  | none => exact ⟨_, rfl, rfl⟩
  | some v =>
    cases v with
    | dict nd =>
      refine ⟨_, rfl, ?_⟩
      rw [dictGet_dictSet_self]
      rfl
    | none => exact ⟨_, rfl, rfl⟩
    | str s => exact ⟨_, rfl, rfl⟩
    | int n => exact ⟨_, rfl, rfl⟩
    | bool b2 => exact ⟨_, rfl, rfl⟩
    | list xs => exact ⟨_, rfl, rfl⟩

theorem pathGet_two (d : PyDict) (k1 k2 : String) (w : PyVal) :
    pathGet d [k1, k2] = some w
      ↔ ∃ d2, dictGet d k1 = some (.dict d2) ∧ dictGet d2 k2 = some w := by
  constructor
  · intro h
    unfold pathGet at h
    cases hv : dictGet d k1 with
    | none => rw [hv] at h; exact absurd h (by simp)
    | some v =>
      rw [hv] at h
      cases v with
      | dict d2 => exact ⟨d2, rfl, h⟩
      | none => exact absurd h (by simp)
      | str s => exact absurd h (by simp)
      | int n => exact absurd h (by simp)
      | bool b => exact absurd h (by simp)
      | list xs => exact absurd h (by simp)
  · rintro ⟨d2, h1, h2⟩
    unfold pathGet
    rw [h1]
    exact h2

theorem pathGet_three (d : PyDict) (k1 k2 k3 : String) (w : PyVal) :
    pathGet d [k1, k2, k3] = some w
      ↔ ∃ d2 d3, dictGet d k1 = some (.dict d2) ∧ dictGet d2 k2 = some (.dict d3)
          ∧ dictGet d3 k3 = some w := by
  constructor
  · intro h
    unfold pathGet at h
    cases hv : dictGet d k1 with
    | none => rw [hv] at h; exact absurd h (by simp)
    | some v =>
      rw [hv] at h
      cases v with
      | dict d2 =>
        obtain ⟨d3, h2, h3⟩ := (pathGet_two d2 k2 k3 w).mp h
        exact ⟨d2, d3, rfl, h2, h3⟩
      | none => exact absurd h (by simp)
      | str s => exact absurd h (by simp)
      | int n => exact absurd h (by simp)
      | bool b => exact absurd h (by simp)
      | list xs => exact absurd h (by simp)
  · rintro ⟨d2, d3, h1, h2, h3⟩
    unfold pathGet
    rw [h1]
    exact (pathGet_two d2 k2 k3 w).mpr ⟨d3, h2, h3⟩

theorem topSection_env_some (m file : PyDict) (sec key s : String)
    (ls pre post : List (String × Option String))
    (hsec : dictGet m sec = some (resolvedFlat ls (dictGet file sec)))
    (hls : ls = pre ++ (key, some s) :: post)
    (hpre : ∀ p ∈ pre, p.1 ≠ key) (hpost : ∀ p ∈ post, p.1 ≠ key) :
    pathGet m [sec, key] = some (.str s) := by
  obtain ⟨d2, hd2, hv⟩ :=
    resolvedFlat_get_env_some ls (dictGet file sec) key s pre post hls hpre hpost
  exact (pathGet_two m sec key _).mpr ⟨d2, by rw [hsec, hd2], hv⟩

theorem topSection_env_none (m file : PyDict) (sec key : String)
    (ls pre post : List (String × Option String))
    (hsec : dictGet m sec = some (resolvedFlat ls (dictGet file sec)))
    (hls : ls = pre ++ (key, Option.none) :: post)
    (hpre : ∀ p ∈ pre, p.1 ≠ key) (hpost : ∀ p ∈ post, p.1 ≠ key)
    (w : PyVal) (hw : pathGet file [sec, key] = some w) :
    pathGet m [sec, key] = some w := by
  obtain ⟨cd, hcd, hw2⟩ := (pathGet_two file sec key w).mp hw
  obtain ⟨d2, hd2, hv⟩ := resolvedFlat_get_env_none ls cd key pre post hls hpre hpost
  refine (pathGet_two m sec key w).mpr ⟨d2, ?_, ?_⟩
  · rw [hsec, hcd, hd2]
  · rw [hv, hw2]

theorem notifSection_env_some (m file : PyDict) (env : String → Option String)
    (sub key s : String) (ls pre post : List (String × Option String))
    (hn : dictGet m "notifications"
      = some (resolvedNotifications (dictGet file "notifications") env))
    (hget : ∀ b, ∃ ndd, resolvedNotifications b env = .dict ndd ∧
      dictGet ndd sub = some (resolvedFlat ls (notifInner b sub)))
    (hls : ls = pre ++ (key, some s) :: post)
    (hpre : ∀ p ∈ pre, p.1 ≠ key) (hpost : ∀ p ∈ post, p.1 ≠ key) :
    pathGet m ["notifications", sub, key] = some (.str s) := by
  obtain ⟨ndd, hndd, hsub⟩ := hget (dictGet file "notifications")
  obtain ⟨d2, hd2, hv⟩ := resolvedFlat_get_env_some ls
    (notifInner (dictGet file "notifications") sub) key s pre post hls hpre hpost
  exact (pathGet_three m _ _ _ _).mpr
    ⟨ndd, d2, by rw [hn, hndd], by rw [hsub, hd2], hv⟩

theorem notifSection_env_none (m file : PyDict) (env : String → Option String)
    (sub key : String) (ls pre post : List (String × Option String))
    (hn : dictGet m "notifications"
      = some (resolvedNotifications (dictGet file "notifications") env))
    (hget : ∀ b, ∃ ndd, resolvedNotifications b env = .dict ndd ∧
      dictGet ndd sub = some (resolvedFlat ls (notifInner b sub)))
    (hls : ls = pre ++ (key, Option.none) :: post)
    (hpre : ∀ p ∈ pre, p.1 ≠ key) (hpost : ∀ p ∈ post, p.1 ≠ key)
    (w : PyVal) (hw : pathGet file ["notifications", sub, key] = some w) :
    pathGet m ["notifications", sub, key] = some w := by
  obtain ⟨nd, dd, h1, h2, h3⟩ := (pathGet_three file _ _ _ w).mp hw
  obtain ⟨ndd, hndd, hsub⟩ := hget (dictGet file "notifications")
  obtain ⟨d2, hd2, hv⟩ := resolvedFlat_get_env_none ls dd key pre post hls hpre hpost
  refine (pathGet_three m _ _ _ w).mpr ⟨ndd, d2, by rw [hn, hndd], ?_, by rw [hv, h3]⟩
  rw [hsub, h1]
  simp only [notifInner]
  rw [h2, hd2]

theorem topSection_notmem (m file : PyDict) (sec key : String)
    (ls : List (String × Option String))
    (hsec : dictGet m sec = some (resolvedFlat ls (dictGet file sec)))
    (hWFs : SectionIsDict file sec)
    (hkeys : ∀ p ∈ ls, p.1 ≠ key) :
    pathGet m [sec, key] = pathGet file [sec, key] := by
  cases hb : dictGet file sec with
  | none =>
    obtain ⟨d2, hd2, hv⟩ := resolvedFlat_get_notmem_none ls key hkeys
    unfold pathGet
    rw [hsec, hb, hd2]
    simp [pathGet, hv]
  | some v =>
    obtain ⟨cd, rfl⟩ := hWFs v hb
    obtain ⟨d2, hd2, hv⟩ := resolvedFlat_get_notmem_dict ls cd key hkeys
    unfold pathGet
    rw [hsec, hb, hd2]
    simp [pathGet, hv]

theorem notifSection_notmem (m file : PyDict) (env : String → Option String)
    (sub key : String) (ls : List (String × Option String))
    (hn : dictGet m "notifications"
      = some (resolvedNotifications (dictGet file "notifications") env))
    (hget : ∀ b, ∃ ndd, resolvedNotifications b env = .dict ndd ∧
      dictGet ndd sub = some (resolvedFlat ls (notifInner b sub)))
    (hWFn : SectionIsDict file "notifications")
    (hWFnn : ∀ nd, dictGet file "notifications" = some (.dict nd) → SectionIsDict nd sub)
    (hkeys : ∀ p ∈ ls, p.1 ≠ key) :
    pathGet m ["notifications", sub, key] = pathGet file ["notifications", sub, key] := by
  obtain ⟨ndd, hndd, hsub⟩ := hget (dictGet file "notifications")
  cases hb : dictGet file "notifications" with
  | none =>
    rw [hb] at hndd hsub
    unfold pathGet
    rw [hn, hb, hndd]
    simp only []
    unfold pathGet
    rw [hsub]
    obtain ⟨d2, hd2, hv⟩ := resolvedFlat_get_notmem_none ls key hkeys
    simp only [notifInner]
    rw [hd2]
    simp [pathGet, hv]
  | some v =>
    obtain ⟨nd, rfl⟩ := hWFn v hb
    rw [hb] at hndd hsub
    unfold pathGet
    rw [hn, hb, hndd]
    simp only []
    unfold pathGet
    rw [hsub]
    simp only [notifInner]
    cases hbb : dictGet nd sub with
    | none =>
      obtain ⟨d2, hd2, hv⟩ := resolvedFlat_get_notmem_none ls key hkeys
      rw [hd2]
      simp [pathGet, hv]
    | some v2 =>
      obtain ⟨dd, rfl⟩ := hWFnn nd hb v2 hbb
      obtain ⟨d2, hd2, hv⟩ := resolvedFlat_get_notmem_dict ls dd key hkeys
      rw [hd2]
      simp [pathGet, hv]

theorem pathGet_two_congr (m file : PyDict) (k1 k2 : String)
    (h : dictGet m k1 = dictGet file k1) :
    pathGet m [k1, k2] = pathGet file [k1, k2] := by
  unfold pathGet
  rw [h]

theorem notify_email_never_sent (mgr : NotificationManagerS) (delivery : Except String Unit)
    (status issue_url : String) (details : PyDict) (d : DiscordNotifierS)
    (url : String) (em : EmailNotifierS) (se : SessionEmbed)
    (tpl : String × String × String)
    (hd : mgr.discord = some d)
    (hurl : d.webhook_url = some url)
    (he : mgr.email = some em)
    (hse : create_session_embed status issue_url details = .ok se)
    (htpl : create_session_email status issue_url details = .ok tpl) :
    notify_session_status mgr delivery status issue_url details
      = .ok [ChannelEffect.webhookPost url
          ("ClaudeForge session " ++ status ++ " for " ++ issue_url) se] ∧
    (∀ eff ∈ [ChannelEffect.webhookPost url
        ("ClaudeForge session " ++ status ++ " for " ++ issue_url) se],
      ∀ toE subj body html, eff ≠ ChannelEffect.emailSend toE subj body html) := by
  constructor
  · unfold notify_session_status send_webhook_message
    rw [hd, he, hse, htpl]
    simp only []
    rw [hurl]
    cases delivery <;> rfl
  · intro eff heff toE subj body html
    simp at heff
    rw [heff]
    simp

theorem pyJoinStrs_map_take (l : List String) (n : Nat) :
    pyJoinStrs ((l.map PyVal.str).take n) = .ok (l.take n) := by
  rw [← List.map_take]
  exact pyJoinStrs_map_str (l.take n)

theorem embed_truncates_changes (status issue_url : String) (details : PyDict)
    (changes : List String)
    (hch : dictGet details "changes" = some (.list (changes.map PyVal.str)))
    (hne : changes ≠ []) :
    ∃ se, create_session_embed status issue_url details = .ok se ∧
      ("Changes Made", PyVal.str (joinSep "\n" (changes.take 5)), false) ∈ se.fields := by
  have hne2 : (changes.map PyVal.str).isEmpty = false := by
    cases changes with
    | nil => exact absurd rfl hne
    | cons a l => rfl
  unfold create_session_embed
  rw [hch]
  simp only [pyTruthy, hne2, Bool.not_false, if_true, pyJoinStrs_map_take]
  exact ⟨_, rfl, by simp⟩

/- ---------------------------------------------------------------------
The claims
--------------------------------------------------------------------- -/

/-- C1: the claim says the budget read `self.config.claude.timeout`
never fails and the assistant runs with the configured budget.  On the
code it fails on every session: `ClaudeConfig` declares only `api_key`,
`model` and `max_tokens`, so the attribute read raises `AttributeError`
(first conjunct), and even when parse, fetch, mkdir, clone, branch and
the prompt all succeed the try block ends at that read — the session
trace holds exactly the "started" notification and the assistant
subprocess is never invoked (second conjunct).  The hard `max_time + 60`
wall-clock timeout the claim describes is visible in
`run_claude_code_session`, which is dead code in `run_session`. -/
theorem claim_C1_budget_attribute_read_fails :
    (∀ c : ClaudeConfig, claudeConfigGetattr c "timeout"
        = .error (.attributeError "ClaudeConfig object has no attribute timeout")) ∧
    (∀ (cfg : Config) (env : OrchestratorEnv) (a : SessionArgs) (ts : Int)
       (owner repo : String) (n : Int) (issue_data repo_data : PyDict)
       (cu : String) (fnv : PyVal) (prompt : String),
      parse_issue_url a.issue_url = .ok (owner, repo, n) →
      env.issueFetch = .ok issue_data →
      env.repoFetch = .ok repo_data →
      env.mkdirOk = .ok () →
      dictGet repo_data "clone_url" = some (.str cu) →
      env.cloneOk = .ok () →
      env.branchOk = .ok () →
      create_instruction_prompt a.instruction (some issue_data) (some repo_data) = .ok prompt →
      dictGet repo_data "full_name" = some fnv →
      ∃ ds, runSessionTry cfg env a ts
        = .exn (.attributeError "ClaudeConfig object has no attribute timeout")
            [.notify "started" ds]) :=
  ⟨fun _ => rfl, runSessionTry_attr_error⟩

/-- C1 witness: the fully cooperative session concretely dies at the
budget read with only the "started" notification sent. -/
theorem claim_C1_budget_attribute_read_fails_witness :
    ∃ ds, runSessionTry cfgDemo envCoop argsDemo 1000
      = .exn (.attributeError "ClaudeConfig object has no attribute timeout")
          [.notify "started" ds] :=
  claim_C1_budget_attribute_read_fails.2 cfgDemo envCoop argsDemo 1000 "o" "r" 1
    issueDemo repoDemo "https://github.com/o/r.git" (.str "o/r") _
    rfl rfl rfl rfl rfl rfl rfl rfl rfl

/-- C2: the claim says a PR is attempted iff the assistant succeeded,
the tree has a diff, the caller requested a PR and auto-create is on,
and that with a diff but a PR condition false the session still reports
success.  On the code even a session in which every one of those
conditions would hold — assistant exits 0, dirty tree, `create_pr` and
`auto_create_pr` true — never attempts a PR, never commits, and reports
failure: the `config.claude.timeout` AttributeError aborts the session
before the assistant phase, so the PR-gating branch (orchestrator.py,
lines 125-209) is unreachable. -/
theorem claim_C2_pr_gating_unreachable (cfg : Config) (env : OrchestratorEnv)
    (a : SessionArgs) (ts : Int) (owner repo : String) (n : Int)
    (issue_data repo_data : PyDict) (cu : String) (fnv : PyVal) (prompt : String)
    (p : CompletedProcess)
    (hp : parse_issue_url a.issue_url = .ok (owner, repo, n))
    (hif : env.issueFetch = .ok issue_data)
    (hrf : env.repoFetch = .ok repo_data)
    (hmk : env.mkdirOk = .ok ())
    (hcu : dictGet repo_data "clone_url" = some (.str cu))
    (hcl : env.cloneOk = .ok ())
    (hbr : env.branchOk = .ok ())
    (hpr : create_instruction_prompt a.instruction (some issue_data) (some repo_data) = .ok prompt)
    (hfn : dictGet repo_data "full_name" = some fnv)
    (hsub : env.subprocess = fun _ => .completed p) (hrc : p.returncode = 0)
    (hdiff : env.dirty = true ∨ env.untracked = true)
    (hcp : a.create_pr = true) (hauto : cfg.development.auto_create_pr = true) :
    prAttempted (runSession cfg env a ts).2 = false ∧
    (runSession cfg env a ts).1.success = false ∧
    (runSession cfg env a ts).1.pr_url = Option.none ∧
    (runSession cfg env a ts).1.changes_committed = Option.none ∧
    (runSession cfg env a ts).1.error
      = some "ClaudeConfig object has no attribute timeout" := by
  obtain ⟨ds, h⟩ := runSessionTry_attr_error cfg env a ts owner repo n issue_data repo_data
    cu fnv prompt hp hif hrf hmk hcu hcl hbr hpr hfn
  rw [run_session_catches cfg env a ts _ _ h]
  refine ⟨?_, rfl, rfl, rfl, rfl⟩
  simp [prAttempted, errorNotifyDetails]

/-- C2 witness: the concrete session in which every PR condition holds
still attempts no PR and reports failure. -/
theorem claim_C2_pr_gating_unreachable_witness :
    prAttempted (runSession cfgDemo envCoop argsDemo 1000).2 = false ∧
    (runSession cfgDemo envCoop argsDemo 1000).1.success = false ∧
    (runSession cfgDemo envCoop argsDemo 1000).1.pr_url = Option.none ∧
    (runSession cfgDemo envCoop argsDemo 1000).1.changes_committed = Option.none ∧
    (runSession cfgDemo envCoop argsDemo 1000).1.error
      = some "ClaudeConfig object has no attribute timeout" :=
  claim_C2_pr_gating_unreachable cfgDemo envCoop argsDemo 1000 "o" "r" 1 issueDemo repoDemo
    "https://github.com/o/r.git" (.str "o/r") _ { returncode := 0, stdout := "", stderr := "" }
    rfl rfl rfl rfl rfl rfl rfl rfl rfl rfl rfl (Or.inl rfl) rfl rfl

/-- C3: for every collaborator behaviour, `run_session` returns a result
record — either successful or with the error field populated (first
conjunct) — and whenever the try body raises an ordinary exception the
top-level boundary records `str(e)` into the error field, stamps the end
time, appends the "error" notification, and returns the record instead
of re-raising (second conjunct).  `asyncio.CancelledError` is a
`BaseException` in Python and falls outside this model, matching the
claim's non-cancellation proviso. -/
theorem claim_C3_boundary_catches_exceptions :
    (∀ (cfg : Config) (env : OrchestratorEnv) (a : SessionArgs) (ts : Int),
      (runSession cfg env a ts).1.success = true
        ∨ ∃ msg, (runSession cfg env a ts).1.error = some msg) ∧
    (∀ (cfg : Config) (env : OrchestratorEnv) (a : SessionArgs) (ts : Int)
       (e : PyErr) (effs : List Effect),
      runSessionTry cfg env a ts = .exn e effs →
      runSession cfg env a ts
        = ({ success := false, issue_url := a.issue_url, start_time := ts,
             instruction := a.instruction, error := some e.message,
             end_time := some env.endTime },
           effs ++ [.notify "error" (errorNotifyDetails e env.endTime)])) :=
  ⟨run_session_result_or_error, run_session_catches⟩

/-- C3 witness: a failing issue fetch is caught and surfaces as a result
record with the message recorded and the "error" notification sent. -/
theorem claim_C3_boundary_catches_exceptions_witness :
    runSessionTry cfgDemo envFetchFail argsDemo 1000
        = .exn (.gatewayError "404 Not Found") [] ∧
    runSession cfgDemo envFetchFail argsDemo 1000
      = ({ success := false, issue_url := "https://github.com/o/r/issues/1",
           start_time := 1000, instruction := "do it", error := some "404 Not Found",
           end_time := some 2000 },
         [.notify "error" (errorNotifyDetails (.gatewayError "404 Not Found") 2000)]) :=
  ⟨rfl, by
    have h := claim_C3_boundary_catches_exceptions.2 cfgDemo envFetchFail argsDemo 1000
      (.gatewayError "404 Not Found") [] rfl
    simpa using h⟩

/-- C4 counterexample: in an environment whose assistant subprocess
would exceed any time budget, the session does not end "classified like
an assistant failure": no "failed" notification is sent (the statuses
are exactly "started" then "error"), no run analysis is recorded in
`details`, and the error is the AttributeError from the budget read —
refuting the claimed timeout-specific classification at this input. -/
theorem claim_C4_timeout_counterexample :
    envTimeoutDemo.subprocess (cfgDemo.development.max_session_time + 60) = .timedOut ∧
    (runSession cfgDemo envTimeoutDemo argsDemo 1000).1.success = false ∧
    notifyStatuses (runSession cfgDemo envTimeoutDemo argsDemo 1000).2 = ["started", "error"] ∧
    (runSession cfgDemo envTimeoutDemo argsDemo 1000).1.details = Option.none ∧
    (runSession cfgDemo envTimeoutDemo argsDemo 1000).1.error
      = some "ClaudeConfig object has no attribute timeout" :=
  ⟨rfl, rfl, rfl, rfl, rfl⟩

/-- C4 amended: `run_claude_code_session` re-raises a subprocess timeout
as `TimeoutExpired` without classifying it (first conjunct), and a
session whose assistant would time out still ends as a failed result via
the generic error boundary — in the current code the assistant is never
even launched, the budget read fails first, so the result carries the
AttributeError message, an "error" (not "failed") notification, and no
run analysis (second conjunct). -/
theorem claim_C4_timeout_generic_error :
    (∀ (sub : Int → ClaudeRunOutcome) (m : Int), sub (m + 60) = .timedOut →
       run_claude_code_session sub m = .error (.timeoutExpired
         ("Command claude-code timed out after " ++ toString (m + 60) ++ " seconds"))) ∧
    (∀ (cfg : Config) (env : OrchestratorEnv) (a : SessionArgs) (ts : Int)
       (owner repo : String) (n : Int) (issue_data repo_data : PyDict)
       (cu : String) (fnv : PyVal) (prompt : String),
      parse_issue_url a.issue_url = .ok (owner, repo, n) →
      env.issueFetch = .ok issue_data →
      env.repoFetch = .ok repo_data →
      env.mkdirOk = .ok () →
      dictGet repo_data "clone_url" = some (.str cu) →
      env.cloneOk = .ok () →
      env.branchOk = .ok () →
      create_instruction_prompt a.instruction (some issue_data) (some repo_data) = .ok prompt →
      dictGet repo_data "full_name" = some fnv →
      (∀ t, env.subprocess t = .timedOut) →
      (runSession cfg env a ts).1.success = false ∧
      notifyStatuses (runSession cfg env a ts).2 = ["started", "error"] ∧
      (runSession cfg env a ts).1.details = Option.none ∧
      (runSession cfg env a ts).1.error
        = some "ClaudeConfig object has no attribute timeout") := by
  refine ⟨fun sub m h => run_claude_timeout_reraise sub m h, ?_⟩
  intro cfg env a ts owner repo n idata rdata cu fnv prompt hp hif hrf hmk hcu hcl hbr hpr hfn hto
  obtain ⟨ds, h⟩ := runSessionTry_attr_error cfg env a ts owner repo n idata rdata
    cu fnv prompt hp hif hrf hmk hcu hcl hbr hpr hfn
  rw [run_session_catches cfg env a ts _ _ h]
  refine ⟨rfl, ?_, rfl, rfl⟩
  simp [notifyStatuses, errorNotifyDetails]

/-- C4 amended witness: the concrete timing-out environment follows the
generic error path. -/
theorem claim_C4_timeout_generic_error_witness :
    (runSession cfgDemo envTimeoutDemo argsDemo 1000).1.success = false ∧
    notifyStatuses (runSession cfgDemo envTimeoutDemo argsDemo 1000).2 = ["started", "error"] ∧
    (runSession cfgDemo envTimeoutDemo argsDemo 1000).1.details = Option.none ∧
    (runSession cfgDemo envTimeoutDemo argsDemo 1000).1.error
      = some "ClaudeConfig object has no attribute timeout" :=
  claim_C4_timeout_generic_error.2 cfgDemo envTimeoutDemo argsDemo 1000 "o" "r" 1
    issueDemo repoDemo "https://github.com/o/r.git" (.str "o/r") _
    rfl rfl rfl rfl rfl rfl rfl rfl rfl (fun _ => rfl)

/-- C5: the claim (and the repository test `test_config_from_env`) says
that supplying only the two required credentials through the environment
loads successfully with `model` at its schema default.  On the code it
does not: with no `claude` section in the base mapping, `merge_dict`
copies the whole override dict — including `model: None` from the unset
`CLAUDE_MODEL` — and pydantic rejects `None` for the non-optional `str`
field, so `load_from_file` raises a validation error. -/
theorem claim_C5_env_only_load_fails :
    (∃ m, merge_dict (.dict []) (envOverrides envOnlyCreds) = .ok (.dict m) ∧
       dictGet m "claude" = some (.dict [("api_key", .str "test-claude-key"),
                                         ("model", PyVal.none)])) ∧
    load_from_file Option.none envOnlyCreds
      = .error "claude.model: none is not an allowed value" :=
  ⟨⟨_, rfl, rfl⟩, rfl⟩

/-- C6: for every well-formed configuration file and environment, the
merge succeeds; on each of the nine environment-controlled key paths a
present variable wins and an absent one preserves the file value
unchanged; and key paths with no environment variable are untouched. -/
theorem claim_C6_env_override_wins (file : PyDict) (env : String → Option String)
    (hWF : WFFile file) :
    ∃ m, merge_dict (.dict file) (envOverrides env) = .ok (.dict m) ∧
      (∀ p ∈ envVarPaths,
        (∀ s, env p.2 = some s → pathGet m p.1 = some (.str s)) ∧
        (env p.2 = Option.none → ∀ w, pathGet file p.1 = some w → pathGet m p.1 = some w)) ∧
      (∀ q ∈ nonEnvPaths, pathGet m q = pathGet file q) := by
  obtain ⟨m, hm, hc, hg, hn, hrest⟩ := merge_env_structure file env hWF
  obtain ⟨hWc, hWg, hWn, hWnn⟩ := hWF
  refine ⟨m, hm, ?_, ?_⟩
  · intro p hp
    simp only [envVarPaths, List.mem_cons, List.not_mem_nil, or_false] at hp
    rcases hp with rfl | rfl | rfl | rfl | rfl | rfl | rfl | rfl | rfl | rfl
    · refine ⟨?_, ?_⟩
      · intro s hs
        exact topSection_env_some m file "claude" "api_key" s (claudeLeaves env) [] [("model", env "CLAUDE_MODEL")]
          hc (by simp [claudeLeaves, hs]) (by simp) (by simp)
      · intro habs w hw
        exact topSection_env_none m file "claude" "api_key" (claudeLeaves env) [] [("model", env "CLAUDE_MODEL")]
          hc (by simp [claudeLeaves, habs]) (by simp) (by simp) w hw
    · refine ⟨?_, ?_⟩
      · intro s hs
        exact topSection_env_some m file "claude" "model" s (claudeLeaves env) [("api_key", env "ANTHROPIC_API_KEY")] []
          hc (by simp [claudeLeaves, hs]) (by simp) (by simp)
      · intro habs w hw
        exact topSection_env_none m file "claude" "model" (claudeLeaves env) [("api_key", env "ANTHROPIC_API_KEY")] []
          hc (by simp [claudeLeaves, habs]) (by simp) (by simp) w hw
    · refine ⟨?_, ?_⟩
      · intro s hs
        exact topSection_env_some m file "github" "token" s (githubLeaves env) [] []
          hg (by simp [githubLeaves, hs]) (by simp) (by simp)
      · intro habs w hw
        exact topSection_env_none m file "github" "token" (githubLeaves env) [] []
          hg (by simp [githubLeaves, habs]) (by simp) (by simp) w hw
    · refine ⟨?_, ?_⟩
      · intro s hs
        exact notifSection_env_some m file env "discord" "webhook_url" s (discordLeaves env) [] [("bot_token", env "DISCORD_BOT_TOKEN"), ("channel_id", env "DISCORD_CHANNEL_ID")]
          hn (fun b => resolvedNotifications_get_discord b env) (by simp [discordLeaves, hs]) (by simp) (by simp)
      · intro habs w hw
        exact notifSection_env_none m file env "discord" "webhook_url" (discordLeaves env) [] [("bot_token", env "DISCORD_BOT_TOKEN"), ("channel_id", env "DISCORD_CHANNEL_ID")]
          hn (fun b => resolvedNotifications_get_discord b env) (by simp [discordLeaves, habs]) (by simp) (by simp) w hw
    · refine ⟨?_, ?_⟩
      · intro s hs
        exact notifSection_env_some m file env "discord" "bot_token" s (discordLeaves env) [("webhook_url", env "DISCORD_WEBHOOK_URL")] [("channel_id", env "DISCORD_CHANNEL_ID")]
          hn (fun b => resolvedNotifications_get_discord b env) (by simp [discordLeaves, hs]) (by simp) (by simp)
      · intro habs w hw
        exact notifSection_env_none m file env "discord" "bot_token" (discordLeaves env) [("webhook_url", env "DISCORD_WEBHOOK_URL")] [("channel_id", env "DISCORD_CHANNEL_ID")]
          hn (fun b => resolvedNotifications_get_discord b env) (by simp [discordLeaves, habs]) (by simp) (by simp) w hw
    · refine ⟨?_, ?_⟩
      · intro s hs
        exact notifSection_env_some m file env "discord" "channel_id" s (discordLeaves env) [("webhook_url", env "DISCORD_WEBHOOK_URL"), ("bot_token", env "DISCORD_BOT_TOKEN")] []
          hn (fun b => resolvedNotifications_get_discord b env) (by simp [discordLeaves, hs]) (by simp) (by simp)
      · intro habs w hw
        exact notifSection_env_none m file env "discord" "channel_id" (discordLeaves env) [("webhook_url", env "DISCORD_WEBHOOK_URL"), ("bot_token", env "DISCORD_BOT_TOKEN")] []
          hn (fun b => resolvedNotifications_get_discord b env) (by simp [discordLeaves, habs]) (by simp) (by simp) w hw
    · refine ⟨?_, ?_⟩
      · intro s hs
        exact notifSection_env_some m file env "email" "smtp_server" s (emailLeaves env) [] [("username", env "SMTP_USERNAME"), ("password", env "SMTP_PASSWORD"), ("to_email", env "EMAIL_TO")]
          hn (fun b => resolvedNotifications_get_email b env) (by simp [emailLeaves, hs]) (by simp) (by simp)
      · intro habs w hw
        exact notifSection_env_none m file env "email" "smtp_server" (emailLeaves env) [] [("username", env "SMTP_USERNAME"), ("password", env "SMTP_PASSWORD"), ("to_email", env "EMAIL_TO")]
          hn (fun b => resolvedNotifications_get_email b env) (by simp [emailLeaves, habs]) (by simp) (by simp) w hw
    · refine ⟨?_, ?_⟩
      · intro s hs
        exact notifSection_env_some m file env "email" "username" s (emailLeaves env) [("smtp_server", env "SMTP_SERVER")] [("password", env "SMTP_PASSWORD"), ("to_email", env "EMAIL_TO")]
          hn (fun b => resolvedNotifications_get_email b env) (by simp [emailLeaves, hs]) (by simp) (by simp)
      · intro habs w hw
        exact notifSection_env_none m file env "email" "username" (emailLeaves env) [("smtp_server", env "SMTP_SERVER")] [("password", env "SMTP_PASSWORD"), ("to_email", env "EMAIL_TO")]
          hn (fun b => resolvedNotifications_get_email b env) (by simp [emailLeaves, habs]) (by simp) (by simp) w hw
    · refine ⟨?_, ?_⟩
      · intro s hs
        exact notifSection_env_some m file env "email" "password" s (emailLeaves env) [("smtp_server", env "SMTP_SERVER"), ("username", env "SMTP_USERNAME")] [("to_email", env "EMAIL_TO")]
          hn (fun b => resolvedNotifications_get_email b env) (by simp [emailLeaves, hs]) (by simp) (by simp)
      · intro habs w hw
        exact notifSection_env_none m file env "email" "password" (emailLeaves env) [("smtp_server", env "SMTP_SERVER"), ("username", env "SMTP_USERNAME")] [("to_email", env "EMAIL_TO")]
          hn (fun b => resolvedNotifications_get_email b env) (by simp [emailLeaves, habs]) (by simp) (by simp) w hw
    · refine ⟨?_, ?_⟩
      · intro s hs
        exact notifSection_env_some m file env "email" "to_email" s (emailLeaves env) [("smtp_server", env "SMTP_SERVER"), ("username", env "SMTP_USERNAME"), ("password", env "SMTP_PASSWORD")] []
          hn (fun b => resolvedNotifications_get_email b env) (by simp [emailLeaves, hs]) (by simp) (by simp)
      · intro habs w hw
        exact notifSection_env_none m file env "email" "to_email" (emailLeaves env) [("smtp_server", env "SMTP_SERVER"), ("username", env "SMTP_USERNAME"), ("password", env "SMTP_PASSWORD")] []
          hn (fun b => resolvedNotifications_get_email b env) (by simp [emailLeaves, habs]) (by simp) (by simp) w hw
  · intro q hq
    simp only [nonEnvPaths, List.mem_cons, List.not_mem_nil, or_false] at hq
    rcases hq with rfl | rfl | rfl | rfl | rfl | rfl | rfl
    · exact topSection_notmem m file "claude" "max_tokens" (claudeLeaves env) hc hWc
        (by simp [claudeLeaves])
    · exact topSection_notmem m file "github" "default_branch" (githubLeaves env) hg hWg
        (by simp [githubLeaves])
    · exact notifSection_notmem m file env "discord" "enabled" (discordLeaves env)
        hn (fun b => resolvedNotifications_get_discord b env) hWn
        (fun nd hnd => (hWnn nd hnd).1) (by simp [discordLeaves])
    · exact notifSection_notmem m file env "email" "enabled" (emailLeaves env)
        hn (fun b => resolvedNotifications_get_email b env) hWn
        (fun nd hnd => (hWnn nd hnd).2) (by simp [emailLeaves])
    · exact notifSection_notmem m file env "email" "smtp_port" (emailLeaves env)
        hn (fun b => resolvedNotifications_get_email b env) hWn
        (fun nd hnd => (hWnn nd hnd).2) (by simp [emailLeaves])
    · exact pathGet_two_congr m file "development" "max_session_time"
        (hrest "development" (by decide) (by decide) (by decide))
    · exact pathGet_two_congr m file "logging" "level"
        (hrest "logging" (by decide) (by decide) (by decide))

/-- C6 witness: at the repository test inputs, the environment value
wins for the assistant credential and the absent variable preserves the
file-supplied token. -/
theorem claim_C6_env_override_wins_witness :
    ∃ m, merge_dict (.dict fileDemo) (envOverrides envDemo) = .ok (.dict m) ∧
      pathGet m ["claude", "api_key"] = some (.str "env-claude-key") ∧
      pathGet m ["github", "token"] = some (.str "file-github-token") := by
  have hwf : WFFile fileDemo := by
    refine ⟨?_, ?_, ?_, ?_⟩
    · intro v h
      exact ⟨_, (Option.some.inj h).symm⟩
    · intro v h
      exact ⟨_, (Option.some.inj h).symm⟩
    · intro v h
      cases h
    · intro nd h
      cases h
  obtain ⟨m, hm, hpaths, hnon⟩ := claim_C6_env_override_wins fileDemo envDemo hwf
  refine ⟨m, hm, ?_, ?_⟩
  · exact (hpaths (["claude", "api_key"], "ANTHROPIC_API_KEY") (by simp [envVarPaths])).1
      "env-claude-key" rfl
  · exact (hpaths (["github", "token"], "GITHUB_TOKEN") (by simp [envVarPaths])).2
      rfl (.str "file-github-token") rfl

/-- C7: the claim says every enabled channel renders its representation
and attempts delivery.  On the code the Discord channel does — the embed
is built (with changes truncated to the first five) and the webhook POST
is attempted, with failures swallowed — but the email channel only
renders its subject and dual plain/HTML bodies and never attempts
delivery: with both channels configured the effect list holds exactly
the one webhook post and no email send (first conjunct; `delivery` is
arbitrary, so a webhook failure neither propagates nor blocks the email
branch).  The second conjunct confirms the five-entry truncation. -/
theorem claim_C7_email_rendered_not_sent :
    (∀ (mgr : NotificationManagerS) (delivery : Except String Unit)
       (status issue_url : String) (details : PyDict) (d : DiscordNotifierS)
       (url : String) (em : EmailNotifierS) (se : SessionEmbed)
       (tpl : String × String × String),
      mgr.discord = some d → d.webhook_url = some url → mgr.email = some em →
      create_session_embed status issue_url details = .ok se →
      create_session_email status issue_url details = .ok tpl →
      notify_session_status mgr delivery status issue_url details
        = .ok [ChannelEffect.webhookPost url
            ("ClaudeForge session " ++ status ++ " for " ++ issue_url) se] ∧
      (∀ eff ∈ [ChannelEffect.webhookPost url
          ("ClaudeForge session " ++ status ++ " for " ++ issue_url) se],
        ∀ toE subj body html, eff ≠ ChannelEffect.emailSend toE subj body html)) ∧
    (∀ (status issue_url : String) (details : PyDict) (changes : List String),
      dictGet details "changes" = some (.list (changes.map PyVal.str)) →
      changes ≠ [] →
      ∃ se, create_session_embed status issue_url details = .ok se ∧
        ("Changes Made", PyVal.str (joinSep "\n" (changes.take 5)), false) ∈ se.fields) :=
  ⟨fun mgr delivery status issue_url details d url em se tpl hd hurl he hse htpl =>
     notify_email_never_sent mgr delivery status issue_url details d url em se tpl
       hd hurl he hse htpl,
   embed_truncates_changes⟩

/-- C7 witness: with both channels enabled from the settings and a
failing webhook delivery, the notification produces exactly one webhook
attempt carrying the five-entry truncation and no email send. -/
theorem claim_C7_email_rendered_not_sent_witness :
    ∃ se, create_session_embed "success" "https://github.com/o/r/issues/1" detailsDemo
        = .ok se ∧
      notify_session_status (notificationManagerInit cfgBothChannels)
          (.error "connection refused") "success" "https://github.com/o/r/issues/1" detailsDemo
        = .ok [ChannelEffect.webhookPost "https://discord.example/webhook"
            ("ClaudeForge session " ++ "success" ++ " for " ++ "https://github.com/o/r/issues/1")
            se] ∧
      ("Changes Made", PyVal.str (joinSep "\n" ["c1", "c2", "c3", "c4", "c5"]), false)
        ∈ se.fields := by
  obtain ⟨se, hse, hmem⟩ := claim_C7_email_rendered_not_sent.2 "success"
    "https://github.com/o/r/issues/1" detailsDemo ["c1", "c2", "c3", "c4", "c5", "c6"]
    rfl (by decide)
  refine ⟨se, hse, ?_, ?_⟩
  · exact (claim_C7_email_rendered_not_sent.1 (notificationManagerInit cfgBothChannels)
      (.error "connection refused") "success" "https://github.com/o/r/issues/1" detailsDemo
      _ _ _ se _ rfl rfl rfl hse rfl).1
  · simpa using hmem

/-- C8: `parse_issue_url` round-trips every well-formed issue URL — a
URL whose path is the owner, the repository, `issues` and a number
yields exactly that triple — and raises `ValueError` (the spec's
`InvalidReferenceError`) for any URL whose path lacks an `issues`
segment in the third position or an integer in the fourth. -/
theorem claim_C8_parse_issue_roundtrip :
    (∀ (owner repo numseg : String) (m : Int),
      owner.toList ≠ [] → numseg.toList ≠ [] →
      (∀ a ∈ owner.toList, a ≠ '/' ∧ a ≠ '?' ∧ a ≠ '#') →
      (∀ a ∈ repo.toList, a ≠ '/' ∧ a ≠ '?' ∧ a ≠ '#') →
      (∀ a ∈ numseg.toList, a ≠ '/' ∧ a ≠ '?' ∧ a ≠ '#') →
      pyInt numseg = some m →
      parse_issue_url ("https://host/" ++ owner ++ "/" ++ repo ++ "/issues/" ++ numseg)
        = .ok (owner, repo, m)) ∧
    (∀ url : String,
      ((pathParts url).length < 4 ∨ (pathParts url).getD 2 "" ≠ "issues"
        ∨ pyInt ((pathParts url).getD 3 "") = Option.none) →
      ∃ msg, parse_issue_url url = .error (.valueError msg)) :=
  ⟨parse_roundtrip, parse_failure⟩

/-- C8 witness: the spec's example URL round-trips and a `pulls` URL is
rejected. -/
theorem claim_C8_parse_issue_roundtrip_witness :
    parse_issue_url "https://host/ownerA/repoB/issues/42" = .ok ("ownerA", "repoB", 42) ∧
    (∃ msg, parse_issue_url "https://host/ownerA/repoB/pulls/42"
      = .error (.valueError msg)) :=
  ⟨claim_C8_parse_issue_roundtrip.1 "ownerA" "repoB" "42" 42 (by decide) (by decide)
      (by decide) (by decide) (by decide) rfl,
   claim_C8_parse_issue_roundtrip.2 "https://host/ownerA/repoB/pulls/42" (by decide)⟩

/-- C9: `create_instruction_prompt` is deterministic — in this
embedding it is a pure function of its three arguments — and omitting
the issue or repository context omits exactly that block: in every
combination the output is the newline join of the fixed preamble with
the instruction line, the optional issue block, the optional repository
block, and the fixed task checklist, each given by its own spec-side
definition. -/
theorem claim_C9_prompt_blocks (instruction : String) (i r : PyDict) (bs : String)
    (hi : i ≠ []) (hr : r ≠ [])
    (hb : dictGetD i "body" (.str "No description provided.") = .str bs) :
    create_instruction_prompt instruction (some i) (some r)
      = .ok (joinSep "\n" (promptPreamble instruction ++ promptIssueBlock i bs
          ++ promptRepoBlock r ++ promptChecklist)) ∧
    create_instruction_prompt instruction Option.none (some r)
      = .ok (joinSep "\n" (promptPreamble instruction ++ promptRepoBlock r
          ++ promptChecklist)) ∧
    create_instruction_prompt instruction (some i) Option.none
      = .ok (joinSep "\n" (promptPreamble instruction ++ promptIssueBlock i bs
          ++ promptChecklist)) ∧
    create_instruction_prompt instruction Option.none Option.none
      = .ok (joinSep "\n" (promptPreamble instruction ++ promptChecklist)) := by
  have hii : i.isEmpty = false := by
    cases i with
    | nil => exact absurd rfl hi
    | cons a l => rfl
  have hrr : r.isEmpty = false := by
    cases r with
    | nil => exact absurd rfl hr
    | cons a l => rfl
  refine ⟨?_, ?_, ?_, ?_⟩ <;>
    simp [create_instruction_prompt, pyTruthyDict, hii, hrr, hb, pyJoinStrs, joinSep,
      promptPreamble, promptIssueBlock, promptRepoBlock, promptChecklist]

/-- C9 witness: the prompt for a concrete issue and repository is the
concatenation of all four blocks. -/
theorem claim_C9_prompt_blocks_witness :
    create_instruction_prompt "do it" (some issueDemo) (some repoDemo)
      = .ok (joinSep "\n" (promptPreamble "do it" ++ promptIssueBlock issueDemo "It crashes"
          ++ promptRepoBlock repoDemo ++ promptChecklist)) :=
  (claim_C9_prompt_blocks "do it" issueDemo repoDemo "It crashes"
    (by simp [issueDemo]) (by simp [repoDemo]) rfl).1

/-- C10: whenever the URL path has at least four segments with `issues`
third and an integer fourth, `parse_issue_url` succeeds using only the
first four segments — extra trailing segments are ignored and negative
numbers are accepted, as the two concrete conjuncts show. -/
theorem claim_C10_parse_extra_segments :
    (∀ (url : String) (m : Int),
      4 ≤ (pathParts url).length →
      (pathParts url).getD 2 "" = "issues" →
      pyInt ((pathParts url).getD 3 "") = some m →
      parse_issue_url url
        = .ok ((pathParts url).getD 0 "", (pathParts url).getD 1 "", m)) ∧
    parse_issue_url "https://github.com/ownerA/repoB/issues/42/comments"
      = .ok ("ownerA", "repoB", 42) ∧
    parse_issue_url "https://github.com/ownerA/repoB/issues/-7"
      = .ok ("ownerA", "repoB", -7) :=
  ⟨parse_success_general, rfl, rfl⟩

/-- C10 witness: the general statement applied to the URL with trailing
segments after the issue number. -/
theorem claim_C10_parse_extra_segments_witness :
    parse_issue_url "https://github.com/ownerA/repoB/issues/42/comments"
      = .ok ((pathParts "https://github.com/ownerA/repoB/issues/42/comments").getD 0 "",
             (pathParts "https://github.com/ownerA/repoB/issues/42/comments").getD 1 "", 42) :=
  claim_C10_parse_extra_segments.1 "https://github.com/ownerA/repoB/issues/42/comments" 42
    (by decide) (by decide) rfl

end ClaudeForge

